import Mathlib

/-!
Verification of the GARNET pipeline orchestration script (scripts/garnet.py).

The script sequences five external analysis stages (gene-region mapping, motif
scanning, binding-matrix construction, network export, regression).  This file
gives a shallow embedding of the script: external process execution is an
oracle (exit status plus created files), the filesystem is a list of existing
paths, the configuration is a partial map from section and key to string, and
the script body is translated statement by statement into pure functions.
-/

namespace Garnet

/-! ## String helpers mirroring the Python library functions used by the script -/

/-- One pattern character list matches the front of a string: the regex
wildcard character (the dot) matches any character, every other pattern
character matches only itself.  This is the only regex feature the patterns
in the script use. -/
def patHead : List Char → List Char → Bool
  | [], _ => true
  | _ :: _, [] => false
  | p :: ps, c :: cs => (p = '.' || p = c) && patHead ps cs

/-- Fuelled worker for `reSub`: scan left to right, replace every
non-overlapping match, copy non-matching characters.  The fuel is the
length of the subject string; each step consumes at least one subject
character (for the nonempty patterns the script uses). -/
def reSubCore : Nat → List Char → List Char → List Char → List Char
  | 0, _, _, s => s
  | _ + 1, _, _, [] => []
  | fuel + 1, pat, repl, c :: cs =>
    if patHead pat (c :: cs) then
      repl ++ reSubCore fuel pat repl ((c :: cs).drop pat.length)
    else c :: reSubCore fuel pat repl cs

/-- `re.sub(pat, repl, s)` for the patterns used in the script: leftmost
scanning, all non-overlapping occurrences replaced, the dot matching any
character. -/
def reSub (pat repl s : String) : String :=
  String.mk (reSubCore s.data.length pat.data repl.data s.data)

/-- `os.path.basename`: the part of the path after the last slash. -/
def pyBasename (p : String) : String :=
  String.mk ((p.data.reverse.takeWhile (fun c => c ≠ '/')).reverse)

/-- The first component of `os.path.splitext`: drop the extension that starts
at the last dot of the final path component, unless every character before
that dot in the final component is itself a dot. -/
def pySplitextRoot (p : String) : String :=
  let cs := p.data
  let name := (cs.reverse.takeWhile (fun c => c ≠ '/')).reverse
  let dir := cs.take (cs.length - name.length)
  let ext := name.reverse.takeWhile (fun c => c ≠ '.')
  if ext.length = name.length then p
  else
    let d := name.length - ext.length - 1
    if (name.take d).all (fun c => c = '.') then p
    else String.mk (dir ++ name.take d)

/-- `os.path.join` for the two-argument posix case used in the script. -/
def pathJoin (a b : String) : String :=
  if b.startsWith "/" then b
  else if a = "" then b
  else if a.endsWith "/" then a ++ b
  else a ++ "/" ++ b

/-! ## Process, filesystem and observation model -/

/-- The filesystem is the set of existing paths, as a list. -/
abbrev FS := List String

/-- `os.path.exists`. -/
def fsExists (fs : FS) (p : String) : Bool := fs.contains p

/-- Oracle for `os.system`: the exit status of a command and the files the
external program creates as a side effect. -/
structure Exec where
  status : String → Nat
  creates : String → List String

/-- Which call site of `os.system` an invocation belongs to. -/
inductive Proc
  | mkdirP
  | mapping
  | motifScan
  | bindingMatrix
  | networkExport
  | regression
deriving DecidableEq

/-- Mutable state threaded through the run: the filesystem, the chronological
list of external invocations (call site, command line, exit status) and the
lines written to standard output. -/
structure S where
  fs : FS
  invoked : List (Proc × String × Nat)
  printed : List String
deriving DecidableEq

/-- `os.system(cmd)`: record the invocation, apply the external side effects,
return the exit status. -/
def osSystem (ex : Exec) (p : Proc) (cmd : String) (s : S) : Nat × S :=
  let n := ex.status cmd
  (n, { s with fs := s.fs ++ ex.creates cmd, invoked := s.invoked ++ [(p, cmd, n)] })

/-- `print msg`. -/
def pr (s : S) (msg : String) : S :=
  { s with printed := s.printed ++ [msg] }

/-- Runtime errors the script can raise: concatenating `None` into a command
string, reading a local variable that was never assigned, and reading an
absent configuration option (`ConfigParser.get` raises `NoOptionError`, which
nothing in the script catches). -/
inductive PyErr
  | typeError
  | unboundLocal
  | noOptionError
deriving DecidableEq

/-! ## The four stage functions of scripts/garnet.py -/

/-- The directory-creation step of the first stage: run an external `mkdir`
when the output directory does not exist yet. -/
def mkdirIfMissing (ex : Exec) (dir : String) (s : S) : S :=
  if fsExists s.fs dir then s else (osSystem ex .mkdirP ("mkdir " ++ dir) s).2

/-- `mapGenesToRegions(genefile, xreffile, bedfile, window, outdir)`:
first stage.  Computes the output directory (from the bed file basename when
none is supplied), creates it with an external `mkdir` when missing, builds
the mapping command, and either skips it when the output file exists or runs
it.  The cross-reference path comes straight from the configuration and may
be absent, in which case building the command raises a type error. -/
def mapGenesToRegions (ex : Exec) (progdir : String) (genefile : String)
    (xreffile : Option String) (bedfile : String) (window : String)
    (outdir? : Option String) (s : S) : Except PyErr (Nat × String) × S :=
  let outdir := match outdir? with
    | none => pySplitextRoot (pyBasename bedfile) ++ "eventsWithin" ++ window
    | some d => d
  let outfile := outdir ++ "/events_to_genes.xls"
  let s := mkdirIfMissing ex outdir s
  match xreffile with
  | none => (.error .typeError, s)
  | some xref =>
    let cmd := "python " ++ pathJoin progdir "map_peaks_to_known_genes.py" ++
      " --peaks-format=BED --utilpath=" ++ pathJoin progdir "../src/" ++
      " --upstream-window=" ++ window ++ " --downstream-window=" ++ window ++
      " --tss --map-output=" ++ outfile ++ " --symbol-xref=" ++ xref ++ " " ++
      genefile ++ " " ++ bedfile
    if fsExists s.fs outfile then
      (.ok (0, outfile),
        pr s ("File " ++ outfile ++
          " already exists. If you would like to replace it, delete and re-run"))
    else
      let s := pr s "\n-----------------------------Gene-region mapping output------------------------------------------\n"
      let s := pr s ("Running command:\n" ++ cmd ++ "\n")
      let s := pr s ("Mapping genes from " ++ genefile ++ " to regions within " ++
        window ++ " bp of events from " ++ bedfile ++ " and putting results in " ++ outfile)
      let (res, s) := osSystem ex .mapping cmd s
      (.ok (res, outfile), s)

/-- `motifScanning(tamo_file, fastafile, numthreads, genome, closest_gene_file)`:
second stage.  The output name is derived from the fasta file when no
closest-gene file is given, otherwise from the closest-gene file; an existing
output file short-circuits the stage with a success result. -/
def motifScanning (ex : Exec) (progdir tamo_file fastafile numthreads genome : String)
    (closest_gene_file : String) (s : S) : (Nat × String) × S :=
  let motif_binding_out :=
    if closest_gene_file = "" then reSub ".fasta" "_with_motifs.txt" fastafile
    else reSub ".xls" "_with_motifs.txt" closest_gene_file
  if fsExists s.fs motif_binding_out then
    ((0, motif_binding_out),
      pr s ("\nIntermediate file " ++ motif_binding_out ++
        " already exists, if you would like to replace, delete and re-run"))
  else
    let scan_cmd := "python " ++ pathJoin progdir "motif_fsa_scores.py" ++
      " --motif=" ++ tamo_file ++ " --genome=" ++ genome ++
      " --outfile=" ++ motif_binding_out ++ " --genefile=" ++ closest_gene_file ++
      " --scale=10 --threads=" ++ numthreads ++ " " ++ fastafile
    let s := pr s "\n-----------------------------Motif Scanning Output------------------------------------------\n"
    let s := pr s ("Running command:\n" ++ scan_cmd ++ "\n")
    let s := pr s ("Scanning regions from " ++ fastafile ++ " using matrices from " ++
      tamo_file ++ " and putting results in " ++ motif_binding_out)
    let (res, s) := osSystem ex .motifScan scan_cmd s
    ((res, motif_binding_out), s)

/-- `createBindingMatrix(motif_binding_out, outfile, fastafile, tamo_file, use_uniprot)`:
third stage.  Derives the matrix and pickle names by substitution, extends the
identifier list when the extra source-names file exists, and skips the stage
with a success result when the pickle file already exists. -/
def createBindingMatrix (ex : Exec) (progdir motif_binding_out outfile fastafile tamo_file : String)
    (use_uniprot : Bool) (s : S) : (Nat × String) × S :=
  let tfs :=
    if use_uniprot then reSub ".tamo" "_up_tfids.txt" tamo_file
    else reSub ".tamo" "_tfids.txt" tamo_file
  let matfile := reSub ".txt" ".tgm" motif_binding_out
  let extra_file := reSub ".tamo" "_source_names.txt" (pyBasename tamo_file)
  let tfs := if fsExists s.fs extra_file then tfs ++ "," ++ extra_file else tfs
  let map_cmd := "python " ++ pathJoin progdir "get_window_binding_matrix.py" ++ " " ++
    motif_binding_out ++ " " ++ outfile ++ " " ++ " " ++ fastafile ++
    " --distance-to-gene=\x27\x27 --motif-id-list=" ++ tfs ++ " --outfile=" ++ matfile
  let pklfile := reSub ".tgm" ".pkl" matfile
  if fsExists s.fs pklfile then
    ((0, pklfile),
      pr s ("\nIntermediate file " ++ pklfile ++
        " already exists, if you would like to replace delete and re-run"))
  else
    let s := pr s "\n-----------------------------Binding Matrix Output------------------------------------------\n"
    let s := pr s ("Running command:\n" ++ map_cmd ++ "\n")
    let (res, s) := osSystem ex .bindingMatrix map_cmd s
    ((res, pklfile), s)

/-- The threshold selection of `getTfsFromRegression`: a present nonempty
p-value threshold wins, else a present nonempty q-value threshold is used and
flagged as a q-value, else the default 0.05 is used as a p-value threshold.
The boolean states whether the q-value flag is appended to the command. -/
def thresholdSelect (pvalT qvalT : Option String) : String × Bool :=
  if pvalT = none ∨ pvalT = some "" then
    if qvalT = none ∨ qvalT = some "" then ("0.05", false)
    else (qvalT.getD "", true)
  else (pvalT.getD "", false)

/-- `getTfsFromRegression(pickle_file, expressionfile, pvalT, qvalT)`:
fourth stage.  Prints the output name, skips with a success result when it
exists, otherwise builds the regression command with the selected threshold
and runs it. -/
def getTfsFromRegression (ex : Exec) (progdir pickle_file expressionfile : String)
    (pvalT qvalT : Option String) (s : S) : (Nat × String) × S :=
  let outdir := reSub ".pkl" "regression_results.xls" pickle_file
  let s := pr s outdir
  if fsExists s.fs outdir then ((0, outdir), s)
  else
    let cmd := "python " ++ pathJoin progdir "motif_regression.py" ++
      " --outdir=" ++ outdir ++ " " ++ pickle_file ++ " " ++ expressionfile
    let (thresh, useq) := thresholdSelect pvalT qvalT
    let cmd := if useq then cmd ++ " --use-qval" else cmd
    let cmd := cmd ++ " --thresh=" ++ thresh
    let s := pr s "\n-----------------------------Regression Output------------------------------------------\n"
    let s := pr s ("Running command:\n" ++ cmd ++ "\n")
    let (res, s) := osSystem ex .regression cmd s
    ((res, outdir), s)

/-! ## Configuration, options and run results -/

/-- The configuration: a partial map from section and key to value.  A key
that is present but blank yields the empty string; an absent key has no
value, and every reading site (`ConfigParser.get`) raises `NoOptionError`
when it meets one, so the script variables holding configuration values are
never actually the Python value None. -/
structure Config where
  get : String → String → Option String

/-- The command-line options relevant to the orchestration. -/
structure Opts where
  outdir : Option String
  allgenes : Bool

/-- How a run of `main` ends: the early usage exit, the exit for a missing
gene or bed file, the aborts after each failed required stage, an uncaught
runtime error, or normal completion. -/
inductive Terminal
  | usageExit
  | missingChromatin
  | abortedMapping
  | abortedMotif
  | abortedMatrix
  | abortedRegression
  | crash (e : PyErr)
  | completed
deriving DecidableEq

/-- The process exit status of each terminal state.  Every `sys.exit()` in the
script is called without an argument, which exits with status zero; an
uncaught error exits with status one. -/
def exitCode : Terminal → Nat
  | .crash _ => 1
  | _ => 0

/-- The observable outcome of a run: terminal state, external invocations,
printed lines, and the final values of the artifact-path variables
(`none` when the variable was never assigned). -/
structure RunResult where
  terminal : Terminal
  invoked : List (Proc × String × Nat)
  printed : List String
  outfile : Option String
  bindingOut : Option String
  bindingMatrix : Option String
  regressionOut : Option String
deriving DecidableEq

/-- Package a final state into a run result. -/
def finish (t : Terminal) (s : S)
    (outfile bindingOut bindingMatrix regressionOut : Option String) : RunResult :=
  { terminal := t, invoked := s.invoked, printed := s.printed,
    outfile := outfile, bindingOut := bindingOut,
    bindingMatrix := bindingMatrix, regressionOut := regressionOut }

/-- One call site of `config.get(section, option)`: a present option continues
the run with its value; an absent option raises `NoOptionError`, which nothing
in the script catches, so the run terminates with the given crash result. -/
def withKey (config : Config) (sec key : String) (onRaise : RunResult)
    (k : String → RunResult) : RunResult :=
  match config.get sec key with
  | none => onRaise
  | some v => k v

/-! ## The configuration resolvers of main

Each resolver embeds one of the `if ... is None` default statements of the
source.  In a run the argument is always a present value, because the
preceding `config.get` raises `NoOptionError` on an absent option, so the
`none` branch of each resolver is dead code. -/

/-- `window = config.get(...); if window is None: window = 2000`. -/
def resolveWindow (w : Option String) : String :=
  match w with
  | none => "2000"
  | some x => x

/-- `numthreads = config.get(...); if numthreads is None: numthreads = 1`. -/
def resolveNumthreads (n : Option String) : String :=
  match n with
  | none => "1"
  | some x => x

/-- `delim = config.get(...); if delim is None: delim = empty`. -/
def resolveTfDelimiter (d : Option String) : String :=
  match d with
  | none => ""
  | some x => x

/-! ## The body of main, split at the statement boundaries of the source -/

/-- The network-export block of `main`: when the network flag is present and
neither blank nor the string False, print and run the `zipTgms.py` command;
its exit status is never inspected.  The flag and the delimiter are the
values already read (and defaulted) by the caller. -/
def networkStep (ex : Exec) (progdir : String) (opts : Opts)
    (do_network : Option String) (delim : String) (genome : Option String)
    (binding_matrix : String) (s : S) : S :=
  if do_network ≠ none ∧ do_network ≠ some "" ∧ do_network ≠ some "False" then
    let cmd := "python " ++ pathJoin progdir "zipTgms.py" ++ " --pkl=" ++ binding_matrix ++
      " --genome " ++ genome.getD "" ++ " --as-network --tf-delimiter=" ++ delim
    let cmd := if opts.allgenes then cmd ++ " --allGenes" else cmd
    let s := pr s cmd
    (osSystem ex .networkExport cmd s).2
  else s

/-- The regression block of `main`: when an expression file is configured
(present and nonempty) and both the binding matrix and the expression file
exist on disk, run the regression stage; otherwise print the warning (in the
configured-but-missing case) and keep the current failure flag, leaving the
result unassigned.  The expression file and thresholds are the values
already read by the caller. -/
def regressionStep (ex : Exec) (progdir : String) (expr pvt qvt : Option String)
    (binding_matrix : String) (keeprunning : Nat) (s : S) : (Nat × Option String) × S :=
  if expr ≠ none ∧ expr ≠ some "" then
    if binding_matrix ≠ "" ∧ fsExists s.fs binding_matrix ∧ fsExists s.fs (expr.getD "") then
      let ((kr, tfs), s) :=
        getTfsFromRegression ex progdir binding_matrix (expr.getD "") pvt qvt s
      ((kr, some tfs), s)
    else
      ((keeprunning, none),
        pr s "Cannot perform regression because binding matrix or expression datasets are missing")
  else ((keeprunning, none), s)

/-- The tail of `main` from the network-flag reads on: read the network flag
and delimiter (an absent key raises `NoOptionError`), run the network block,
read the expression keys (again raising on an absent key), run the regression
block, then apply the final failure check. -/
def step4 (ex : Exec) (progdir : String) (opts : Opts) (config : Config)
    (genome : Option String) (outfile : String) (binding_out : Option String)
    (binding_matrix : String) (keeprunning : Nat) (s : S) : RunResult :=
  withKey config "motifData" "doNetwork"
    (finish (.crash .noOptionError) s (some outfile) binding_out (some binding_matrix) none)
    fun dn =>
  withKey config "motifData" "tfDelimiter"
    (finish (.crash .noOptionError) s (some outfile) binding_out (some binding_matrix) none)
    fun dl =>
  let do_network := some dn
  let delim := resolveTfDelimiter (some dl)
  let s := networkStep ex progdir opts do_network delim genome binding_matrix s
  withKey config "expressionData" "expressionFile"
    (finish (.crash .noOptionError) s (some outfile) binding_out (some binding_matrix) none)
    fun ef =>
  withKey config "expressionData" "pvalThresh"
    (finish (.crash .noOptionError) s (some outfile) binding_out (some binding_matrix) none)
    fun pv =>
  withKey config "expressionData" "qvalThresh"
    (finish (.crash .noOptionError) s (some outfile) binding_out (some binding_matrix) none)
    fun qv =>
  let expr : Option String := some ef
  let pvt : Option String := some pv
  let qvt : Option String := some qv
  let ((keeprunning2, tfs?), s) :=
    regressionStep ex progdir expr pvt qvt binding_matrix keeprunning s
  if keeprunning2 ≠ 0 then
    finish .abortedRegression
      (pr s "Error running regression step, check your files and try again")
      (some outfile) binding_out (some binding_matrix) tfs?
  else
    finish .completed s (some outfile) binding_out (some binding_matrix) tfs?

/-- The failure check after the binding-matrix block, shared by all paths
through it. -/
def matrixCheck (ex : Exec) (progdir : String) (opts : Opts) (config : Config)
    (genome : Option String) (outfile : String) (binding_out : Option String)
    (binding_matrix : String) (keeprunning : Nat) (s : S) : RunResult :=
  if keeprunning ≠ 0 then
    finish .abortedMatrix
      (pr s "Error running matrix creation step, check your files and try again")
      (some outfile) binding_out (some binding_matrix) none
  else step4 ex progdir opts config genome outfile binding_out binding_matrix keeprunning s

/-- The binding-matrix block of `main`.  The guard reads `binding_out`, which
was never assigned when the motif-scanning gate was not entered: that read
raises an unbound-local error.  The short-circuit on a blank `outfile` would
bypass the read, and a blank artifact reference skips the stage. -/
def step3 (ex : Exec) (progdir : String) (opts : Opts) (config : Config)
    (tamofile genome : Option String) (outfile : String) (binding_out : Option String)
    (keeprunning : Nat) (s : S) : RunResult :=
  let newfasta := reSub ".xls" ".fsa" outfile
  if outfile ≠ "" then
    match binding_out with
    | none => finish (.crash .unboundLocal) s (some outfile) none none none
    | some bo =>
      if bo ≠ "" then
        let ((kr, binding_matrix), s) :=
          createBindingMatrix ex progdir bo outfile newfasta (tamofile.getD "") false s
        matrixCheck ex progdir opts config genome outfile binding_out binding_matrix kr s
      else matrixCheck ex progdir opts config genome outfile binding_out "" keeprunning s
  else matrixCheck ex progdir opts config genome outfile binding_out "" keeprunning s

/-- The body of the motif-scanning block (source lines 212-233), given the
four values read by the preceding `config.get` calls: enter the block only
when the tamo file and fasta file values are nonempty (the presence checks of
the gate are always true, since an absent key never yields a value); inside,
a missing tamo or fasta file on disk is a warning and leaves a blank artifact
reference, and only this entered block checks the stage result for failure. -/
def step2body (ex : Exec) (progdir : String) (opts : Opts) (config : Config)
    (outfile : String) (tf gn nt ff : String) (keeprunning : Nat) (s : S) : RunResult :=
  let tamofile : Option String := some tf
  let genome : Option String := some gn
  let numthreads := resolveNumthreads (some nt)
  let fastafile : Option String := some ff
  if tamofile ≠ none ∧ tamofile ≠ some "" ∧ genome ≠ none ∧
      fastafile ≠ none ∧ fastafile ≠ some "" then
    let ((kr2, binding_out), s) :=
      if fsExists s.fs (tamofile.getD "") ∧ fsExists s.fs (fastafile.getD "") then
        motifScanning ex progdir (tamofile.getD "") (fastafile.getD "")
          numthreads (genome.getD "") outfile s
      else
        ((keeprunning, ""),
          pr s "Missing FASTA file or TAMO file - check your config file and try again.")
    if kr2 ≠ 0 then
      finish .abortedMotif
        (pr s "Error running motif-scanning step, check your files and try again")
        (some outfile) (some binding_out) none none
    else step3 ex progdir opts config tamofile genome outfile (some binding_out) kr2 s
  else
    step3 ex progdir opts config tamofile genome outfile none keeprunning s

/-- The motif-scanning block of `main`: read the tamo file, genome, thread
count and fasta file in source order (an absent key raises `NoOptionError` at
its read), then run the block body on the read values. -/
def step2 (ex : Exec) (progdir : String) (opts : Opts) (config : Config)
    (outfile : String) (keeprunning : Nat) (s : S) : RunResult :=
  withKey config "motifData" "tamo_file"
    (finish (.crash .noOptionError) s (some outfile) none none none) fun tf =>
  withKey config "motifData" "genome"
    (finish (.crash .noOptionError) s (some outfile) none none none) fun gn =>
  withKey config "motifData" "numthreads"
    (finish (.crash .noOptionError) s (some outfile) none none none) fun nt =>
  withKey config "chromatinData" "fastafile"
    (finish (.crash .noOptionError) s (some outfile) none none none) fun ff =>
  step2body ex progdir opts config outfile tf gn nt ff keeprunning s

/-- `main()`: require exactly one positional argument (else print the message
and exit via a bare `sys.exit()`), read the four chromatin keys in source
order (an absent key raises `NoOptionError` at its read, before anything is
invoked), keep the source's presence gate on the gene and bed values (its
else branch is dead code, since a read value is always present), run the
mapping stage and abort on failure, then continue with the motif-scanning
block. -/
def main (ex : Exec) (progdir : String) (opts : Opts) (args : List String)
    (config : Config) (fs0 : FS) : RunResult :=
  if args.length ≠ 1 then
    { terminal := .usageExit, invoked := [],
      printed := ["Need a configuration file to provide experiment-level details"],
      outfile := none, bindingOut := none, bindingMatrix := none, regressionOut := none }
  else
    let s : S := { fs := fs0, invoked := [], printed := [] }
    withKey config "chromatinData" "genefile"
      (finish (.crash .noOptionError) s none none none none) fun gf0 =>
    withKey config "chromatinData" "bedfile"
      (finish (.crash .noOptionError) s none none none none) fun bf0 =>
    withKey config "chromatinData" "xreffile"
      (finish (.crash .noOptionError) s none none none none) fun xr0 =>
    withKey config "chromatinData" "windowsize"
      (finish (.crash .noOptionError) s none none none none) fun w0 =>
    let genefile : Option String := some gf0
    let bedfile : Option String := some bf0
    let xref : Option String := some xr0
    let window := resolveWindow (some w0)
    match genefile, bedfile with
    | some gf, some bf =>
      (match mapGenesToRegions ex progdir gf xref bf window opts.outdir s with
      | (.error e, s) => finish (.crash e) s none none none none
      | (.ok (keeprunning, outfile), s) =>
        if keeprunning ≠ 0 then
          finish .abortedMapping
            (pr s "Error running gene mapping step, check your files and try again")
            (some outfile) none none none
        else step2 ex progdir opts config outfile keeprunning s)
    | _, _ =>
      finish .missingChromatin
        (pr s "Missing genefile,bedfile or xref file, cannot map genes to regions.")
        none none none none

/-! ## Trace observations -/

/-- The linear order of the call sites along the pipeline. -/
def stageOrder : Proc → Nat
  | .mkdirP => 0
  | .mapping => 1
  | .motifScan => 2
  | .bindingMatrix => 3
  | .networkExport => 4
  | .regression => 5

/-- Some invocation of the given call site appears in the trace. -/
def anyProc (l : List (Proc × String × Nat)) (p : Proc) : Bool :=
  l.any fun e => e.1 = p

/-- Some invocation of the given call site returned a nonzero status. -/
def anyFailed (l : List (Proc × String × Nat)) (p : Proc) : Bool :=
  l.any fun e => e.1 = p ∧ e.2.2 ≠ 0

/-- The number of invocations of call sites strictly after the given stage. -/
def procCountAfter (l : List (Proc × String × Nat)) (p : Proc) : Nat :=
  (l.filter fun e => stageOrder p < stageOrder e.1).length

lemma anyFailed_eq_true {l : List (Proc × String × Nat)} {p : Proc} :
    anyFailed l p = true ↔ ∃ e ∈ l, e.1 = p ∧ e.2.2 ≠ 0 := by
  simp [anyFailed]

lemma anyFailed_eq_false_iff {l : List (Proc × String × Nat)} {p : Proc} :
    anyFailed l p = false ↔ ∀ e ∈ l, ¬(e.1 = p ∧ e.2.2 ≠ 0) := by
  simp only [anyFailed, List.any_eq_false, decide_eq_true_eq]

lemma anyProc_eq_false_of {l : List (Proc × String × Nat)} {p : Proc}
    (h : ∀ e ∈ l, e.1 ≠ p) : anyProc l p = false := by
  simp only [anyProc, List.any_eq_false, decide_eq_true_eq]
  exact h

lemma procCountAfter_eq_zero {l : List (Proc × String × Nat)} {p : Proc}
    (h : ∀ e ∈ l, stageOrder e.1 ≤ stageOrder p) : procCountAfter l p = 0 := by
  have : l.filter (fun e => stageOrder p < stageOrder e.1) = [] := by
    rw [List.filter_eq_nil_iff]
    intro e he
    have := h e he
    simp only [decide_eq_true_eq]
    omega
  simp [procCountAfter, this]

/-! ## Nonemptiness of derived artifact names -/

lemma append_ne_empty_right (a b : String) (hb : b ≠ "") : a ++ b ≠ "" := by
  intro h
  apply hb
  have hd := congrArg String.data h
  rw [String.data_append] at hd
  have : b.data = [] := (List.append_eq_nil.mp hd).2
  exact String.ext this

lemma reSubCore_ne_nil (fuel : Nat) (pat repl s : List Char)
    (hr : repl ≠ []) (hs : s ≠ []) : reSubCore fuel pat repl s ≠ [] := by
  cases fuel with
  | zero => simpa [reSubCore] using hs
  | succ n =>
    cases s with
    | nil => exact absurd rfl hs
    | cons c cs =>
      simp only [reSubCore]
      split
      · simp [hr]
      · simp

lemma reSub_ne_empty (pat repl s : String) (hr : repl ≠ "") (hs : s ≠ "") :
    reSub pat repl s ≠ "" := by
  intro h
  have hd := congrArg String.data h
  simp only [reSub] at hd
  refine reSubCore_ne_nil s.data.length pat.data repl.data s.data ?_ ?_ hd
  · intro hc
    exact hr (String.ext hc)
  · intro hc
    exact hs (String.ext hc)

/-! ## Concrete fixtures used by witnesses and counterexamples -/

/-- An external world in which every command succeeds and creates nothing. -/
def ex0 : Exec := ⟨fun _ => 0, fun _ => []⟩

/-- An external world in which every command fails with status 1. -/
def exFail : Exec := ⟨fun _ => 1, fun _ => []⟩

/-- Options fixing the output directory. -/
def opts0 : Opts := ⟨some "od", false⟩

/-- The empty configuration. -/
def cfgEmpty : Config := ⟨fun _ _ => none⟩

/-- A full chromatin and motif configuration (every fixed key present,
including window size, thread count and delimiter) with a selectable network
flag, expression file and thresholds. -/
def cfgPipe (dn ef pv qv : Option String) : Config := ⟨fun sec key =>
  if sec = "chromatinData" ∧ key = "genefile" then some "g.txt"
  else if sec = "chromatinData" ∧ key = "bedfile" then some "b.bed"
  else if sec = "chromatinData" ∧ key = "xreffile" then some "x.txt"
  else if sec = "chromatinData" ∧ key = "windowsize" then some "2000"
  else if sec = "chromatinData" ∧ key = "fastafile" then some "f.fasta"
  else if sec = "motifData" ∧ key = "tamo_file" then some "t.tamo"
  else if sec = "motifData" ∧ key = "genome" then some "hg19"
  else if sec = "motifData" ∧ key = "numthreads" then some "4"
  else if sec = "motifData" ∧ key = "tfDelimiter" then some "."
  else if sec = "motifData" ∧ key = "doNetwork" then dn
  else if sec = "expressionData" ∧ key = "expressionFile" then ef
  else if sec = "expressionData" ∧ key = "pvalThresh" then pv
  else if sec = "expressionData" ∧ key = "qvalThresh" then qv
  else none⟩

/-- A full chromatin and motif configuration whose tamo file key is present
but blank (every key the run reads up to the binding-matrix gate is
present). -/
def cfgPipe9 : Config := ⟨fun sec key =>
  if sec = "chromatinData" ∧ key = "genefile" then some "g.txt"
  else if sec = "chromatinData" ∧ key = "bedfile" then some "b.bed"
  else if sec = "chromatinData" ∧ key = "xreffile" then some "x.txt"
  else if sec = "chromatinData" ∧ key = "windowsize" then some "2000"
  else if sec = "chromatinData" ∧ key = "fastafile" then some "f.fasta"
  else if sec = "motifData" ∧ key = "tamo_file" then some ""
  else if sec = "motifData" ∧ key = "genome" then some "hg19"
  else if sec = "motifData" ∧ key = "numthreads" then some "4"
  else none⟩

/-- A chromatin section with gene, bed and cross-reference paths but no
windowsize key. -/
def cfgNoWin : Config := ⟨fun sec key =>
  if sec = "chromatinData" ∧ key = "genefile" then some "g.txt"
  else if sec = "chromatinData" ∧ key = "bedfile" then some "b.bed"
  else if sec = "chromatinData" ∧ key = "xreffile" then some "x.txt"
  else none⟩

/-- A motif section with tamo file and genome but no numthreads key. -/
def cfgNoThreads : Config := ⟨fun sec key =>
  if sec = "motifData" ∧ key = "tamo_file" then some "t.tamo"
  else if sec = "motifData" ∧ key = "genome" then some "hg19"
  else none⟩

/-- A motif section with a network flag but no tfDelimiter key. -/
def cfgNoDelim : Config := ⟨fun sec key =>
  if sec = "motifData" ∧ key = "doNetwork" then some "False"
  else none⟩

/-- The stage-1 output path under the fixed output directory. -/
def outfile0 : String := "od/events_to_genes.xls"

/-- The motif-scanning output derived from it. -/
def mbo0 : String := reSub ".xls" "_with_motifs.txt" outfile0

/-- The binding-matrix pickle derived from it. -/
def pkl0 : String := reSub ".tgm" ".pkl" (reSub ".txt" ".tgm" mbo0)

/-- The regression output derived from it. -/
def reg0 : String := reSub ".pkl" "regression_results.xls" pkl0

/-- A filesystem in which every input and every stage output already exists:
the state left behind by a completed run. -/
def fsCached : FS := ["od", outfile0, "t.tamo", "f.fasta", mbo0, pkl0, reg0]

/-! ## Claim C3: regression threshold selection -/

/-- Claim C3: the regression invocation uses the p-value threshold when it is
present and nonempty (q-value flag off); otherwise the q-value threshold when
that is present and nonempty (q-value flag on); otherwise the string 0.05 with
the p-value interpretation. -/
theorem c3_threshold_selection (pvalT qvalT : Option String) :
    (∀ p, pvalT = some p → p ≠ "" → thresholdSelect pvalT qvalT = (p, false))
  ∧ (∀ q, (pvalT = none ∨ pvalT = some "") → qvalT = some q → q ≠ "" →
      thresholdSelect pvalT qvalT = (q, true))
  ∧ ((pvalT = none ∨ pvalT = some "") → (qvalT = none ∨ qvalT = some "") →
      thresholdSelect pvalT qvalT = ("0.05", false)) := by
  refine ⟨?_, ?_, ?_⟩
  · intro p hp hpne
    subst hp
    simp [thresholdSelect, hpne]
  · intro q hp hq hqne
    subst hq
    rcases hp with hp | hp <;> subst hp <;> simp [thresholdSelect, hqne]
  · intro hp hq
    rcases hp with hp | hp <;> rcases hq with hq | hq <;> subst hp <;> subst hq <;>
      simp [thresholdSelect]

/-- Witness for C3 at concrete thresholds, covering all three branches. -/
theorem c3_threshold_selection_witness :
    thresholdSelect (some "0.01") (some "0.2") = ("0.01", false)
  ∧ thresholdSelect none (some "0.2") = ("0.2", true)
  ∧ thresholdSelect (some "") none = ("0.05", false) :=
  ⟨(c3_threshold_selection (some "0.01") (some "0.2")).1 "0.01" rfl (by decide),
   (c3_threshold_selection none (some "0.2")).2.1 "0.2" (Or.inl rfl) rfl (by decide),
   (c3_threshold_selection (some "") none).2.2 (Or.inr rfl) (Or.inl rfl)⟩

/-! ## Claim C7: configuration defaults -/

/-- Claim C7 fails on a blank window size: the claim says a blank value
resolves to 2000, but the script only replaces an absent value, so a blank
window size stays blank. -/
theorem c7_counterexample : (resolveWindow (some "") = "2000") = False :=
  eq_false (by decide)

/-- Claim C7 amended: a configured window size, thread count or delimiter is
used verbatim (a blank value stays blank; in particular a blank windowsize
does not become 2000); the in-code defaults for an absent value (2000, 1 and
the empty string at source lines 187-188, 206-207 and 238-239) are dead code,
because `config.get` raises `NoOptionError` on an absent option: with the
keys read before it present, an absent windowsize key crashes the run before
anything is invoked, an absent numthreads key crashes the motif block at its
read, and an absent tfDelimiter key crashes the network block at its read. -/
theorem c7_amended :
    (∀ w : String, resolveWindow (some w) = w)
  ∧ (∀ n : String, resolveNumthreads (some n) = n)
  ∧ (∀ d : String, resolveTfDelimiter (some d) = d)
  ∧ (∀ (ex : Exec) (progdir : String) (opts : Opts) (args : List String)
      (config : Config) (fs0 : FS) (gf bf xr : String),
      args.length = 1 →
      config.get "chromatinData" "genefile" = some gf →
      config.get "chromatinData" "bedfile" = some bf →
      config.get "chromatinData" "xreffile" = some xr →
      config.get "chromatinData" "windowsize" = none →
      (main ex progdir opts args config fs0).terminal = .crash .noOptionError
      ∧ (main ex progdir opts args config fs0).invoked = [])
  ∧ (∀ (ex : Exec) (progdir : String) (opts : Opts) (config : Config)
      (outfile : String) (kr : Nat) (s : S) (tf gn : String),
      config.get "motifData" "tamo_file" = some tf →
      config.get "motifData" "genome" = some gn →
      config.get "motifData" "numthreads" = none →
      (step2 ex progdir opts config outfile kr s).terminal = .crash .noOptionError
      ∧ (step2 ex progdir opts config outfile kr s).invoked = s.invoked)
  ∧ (∀ (ex : Exec) (progdir : String) (opts : Opts) (config : Config)
      (genome : Option String) (outfile : String) (binding_out : Option String)
      (bm : String) (kr : Nat) (s : S) (dn0 : String),
      config.get "motifData" "doNetwork" = some dn0 →
      config.get "motifData" "tfDelimiter" = none →
      (step4 ex progdir opts config genome outfile binding_out bm kr s).terminal
        = .crash .noOptionError
      ∧ (step4 ex progdir opts config genome outfile binding_out bm kr s).invoked
        = s.invoked) := by
  refine ⟨fun _ => rfl, fun _ => rfl, fun _ => rfl, ?_, ?_, ?_⟩
  · intro ex progdir opts args config fs0 gf bf xr h1 hgf hbf hxr hw
    have h1' : ¬ args.length ≠ 1 := by omega
    constructor <;> simp [main, withKey, h1', hgf, hbf, hxr, hw, finish]
  · intro ex progdir opts config outfile kr s tf gn ht hgn hnt
    constructor <;> simp [step2, withKey, ht, hgn, hnt, finish]
  · intro ex progdir opts config genome outfile binding_out bm kr s dn0 hdn hdl
    constructor <;> simp [step4, withKey, hdn, hdl, finish]

/-- Witness for the amended C7: a blank window size is kept verbatim, and an
absent windowsize, numthreads or tfDelimiter key crashes at its read. -/
theorem c7_amended_witness :
    resolveWindow (some "") = ""
  ∧ (main ex0 "" opts0 ["garnet.cfg"] cfgNoWin []).invoked = []
  ∧ (step2 ex0 "" opts0 cfgNoThreads "od/events_to_genes.xls" 0 ⟨[], [], []⟩).terminal
      = .crash .noOptionError
  ∧ (step4 ex0 "" opts0 cfgNoDelim none "od/events_to_genes.xls" none "" 0
      ⟨[], [], []⟩).terminal = .crash .noOptionError :=
  ⟨c7_amended.1 "",
   (c7_amended.2.2.2.1 ex0 "" opts0 ["garnet.cfg"] cfgNoWin [] "g.txt" "b.bed" "x.txt"
     (by decide) (by decide) (by decide) (by decide) (by decide)).2,
   (c7_amended.2.2.2.2.1 ex0 "" opts0 cfgNoThreads "od/events_to_genes.xls" 0 ⟨[], [], []⟩
     "t.tamo" "hg19" (by decide) (by decide) (by decide)).1,
   (c7_amended.2.2.2.2.2 ex0 "" opts0 cfgNoDelim none "od/events_to_genes.xls" none "" 0
     ⟨[], [], []⟩ "False" (by decide) (by decide)).1⟩

/-! ## Claim C10: name derivation by regular-expression substitution -/

/-- Claim C10 fails: the substitution is not first-occurrence-only.  On a
pickle path whose earlier characters also match the pattern, the final
extension is rewritten as well, so the result is not the claimed
earlier-occurrence-only rewrite. -/
theorem c10_counterexample :
    (reSub ".pkl" "regression_results.xls" "aXpkl.pkl"
      = "aregression_results.xls.pkl") = False :=
  eq_false (by decide)

/-- Claim C10 amended: output names are derived by regular-expression
substitution in which the dot matches any character and every non-overlapping
occurrence is replaced (leftmost first).  A single-match path is rewritten
with no separator, and a path with an earlier match has both the earlier
occurrence and the final extension rewritten. -/
theorem c10_amended :
    reSub ".pkl" "regression_results.xls" "m.pkl" = "mregression_results.xls"
  ∧ reSub ".pkl" "regression_results.xls" "aXpkl.pkl"
      = "aregression_results.xlsregression_results.xls"
  ∧ (getTfsFromRegression ex0 "" "m.pkl" "expr.txt" none none ⟨[], [], []⟩).1.2
      = "mregression_results.xls" := by decide

/-! ## Claim C8: the usage exit -/

/-- Claim C8 fails on the exit status: without a configuration argument the
script prints the message and calls a bare sys.exit, which terminates with
status zero, not a nonzero status. -/
theorem c8_counterexample :
    (main ex0 "" opts0 [] cfgEmpty []).terminal = .usageExit
  ∧ (main ex0 "" opts0 [] cfgEmpty []).printed
      = ["Need a configuration file to provide experiment-level details"]
  ∧ exitCode (main ex0 "" opts0 [] cfgEmpty []).terminal = 0 := by decide

/-- Claim C8 amended: when invoked without exactly one positional argument,
the run prints the usage message and terminates with exit status zero before
reading any configuration value and before invoking any stage; the outcome is
independent of the execution environment and configuration. -/
theorem c8_amended (ex ex' : Exec) (progdir progdir' : String) (opts opts' : Opts)
    (args : List String) (config config' : Config) (fs0 fs0' : FS)
    (h : args.length ≠ 1) :
    main ex progdir opts args config fs0 = main ex' progdir' opts' args config' fs0'
  ∧ (main ex progdir opts args config fs0).terminal = .usageExit
  ∧ (main ex progdir opts args config fs0).invoked = []
  ∧ (main ex progdir opts args config fs0).printed
      = ["Need a configuration file to provide experiment-level details"]
  ∧ exitCode (main ex progdir opts args config fs0).terminal = 0 := by
  refine ⟨?_, ?_, ?_, ?_, ?_⟩ <;> simp [main, h, exitCode]

/-- Witness for the amended C8 at the empty argument list. -/
theorem c8_amended_witness :
    (main ex0 "" opts0 [] cfgEmpty []).terminal = .usageExit
  ∧ exitCode (main ex0 "" opts0 [] cfgEmpty []).terminal = 0 :=
  ⟨(c8_amended ex0 ex0 "" "" opts0 opts0 [] cfgEmpty cfgEmpty [] [] (by decide)).2.1,
   (c8_amended ex0 ex0 "" "" opts0 opts0 [] cfgEmpty cfgEmpty [] [] (by decide)).2.2.2.2⟩

/-! ## Trace lemmas for the dependency-gating claim -/

lemma mkdirIfMissing_invoked (ex : Exec) (dir : String) (s : S) :
    ∀ e ∈ (mkdirIfMissing ex dir s).invoked, e ∈ s.invoked ∨ e.1 = .mkdirP := by
  intro e he
  unfold mkdirIfMissing at he
  split at he
  · exact Or.inl he
  · simp only [osSystem, List.mem_append, List.mem_singleton] at he
    rcases he with he | he
    · exact Or.inl he
    · subst he
      exact Or.inr rfl

lemma mkdirIfMissing_printed (ex : Exec) (dir : String) (s : S) :
    (mkdirIfMissing ex dir s).printed = s.printed := by
  unfold mkdirIfMissing
  split <;> simp [osSystem]

lemma mapGenesToRegions_invoked (ex : Exec) (progdir genefile : String)
    (xreffile : Option String) (bedfile window : String) (outdir? : Option String)
    (s : S) (r : Except PyErr (Nat × String)) (s' : S)
    (h : mapGenesToRegions ex progdir genefile xreffile bedfile window outdir? s = (r, s')) :
    ∀ e ∈ s'.invoked, e ∈ s.invoked ∨ e.1 = .mkdirP ∨
      (e.1 = .mapping ∧ ∃ out, r = .ok (e.2.2, out)) := by
  intro e he
  simp only [mapGenesToRegions] at h
  split at h
  · -- cross-reference absent: type error, at most a mkdir invocation
    injection h with hr hs
    subst hs
    rcases mkdirIfMissing_invoked ex _ s e he with h1 | h1
    · exact Or.inl h1
    · exact Or.inr (Or.inl h1)
  · -- cross-reference present
    split at h
    · -- cached output: only the possible mkdir invocation
      injection h with hr hs
      subst hs
      simp only [pr] at he
      rcases mkdirIfMissing_invoked ex _ s e he with h1 | h1
      · exact Or.inl h1
      · exact Or.inr (Or.inl h1)
    · -- mapping command invoked
      injection h with hr hs
      subst hs
      simp only [osSystem, pr, List.mem_append, List.mem_singleton] at he
      rcases he with he | he
      · rcases mkdirIfMissing_invoked ex _ s e he with h1 | h1
        · exact Or.inl h1
        · exact Or.inr (Or.inl h1)
      · subst he
        exact Or.inr (Or.inr ⟨rfl, ⟨_, hr.symm⟩⟩)

lemma motifScanning_invoked (ex : Exec) (progdir t f n g cg : String) (s : S)
    (res : Nat × String) (s' : S)
    (h : motifScanning ex progdir t f n g cg s = (res, s')) :
    ∀ e ∈ s'.invoked, e ∈ s.invoked ∨ (e.1 = .motifScan ∧ e.2.2 = res.1) := by
  intro e he
  simp only [motifScanning] at h
  split at h <;> split at h <;>
  first
  | (injection h with hr hs
     subst hs
     simp only [pr] at he
     exact Or.inl he)
  | (injection h with hr hs
     subst hs
     subst hr
     simp only [osSystem, pr, List.mem_append, List.mem_singleton] at he
     rcases he with he | he
     · exact Or.inl he
     · subst he
       exact Or.inr ⟨rfl, rfl⟩)

lemma createBindingMatrix_invoked (ex : Exec) (progdir mb out fa tm : String)
    (u : Bool) (s : S) (res : Nat × String) (s' : S)
    (h : createBindingMatrix ex progdir mb out fa tm u s = (res, s')) :
    ∀ e ∈ s'.invoked, e ∈ s.invoked ∨ (e.1 = .bindingMatrix ∧ e.2.2 = res.1) := by
  intro e he
  simp only [createBindingMatrix] at h
  split at h
  · injection h with hr hs
    subst hs
    simp only [pr] at he
    exact Or.inl he
  · injection h with hr hs
    subst hs
    subst hr
    simp only [osSystem, pr, List.mem_append, List.mem_singleton] at he
    rcases he with he | he
    · exact Or.inl he
    · subst he
      exact Or.inr ⟨rfl, rfl⟩

lemma getTfsFromRegression_invoked (ex : Exec) (progdir pk ef : String)
    (pvt qvt : Option String) (s : S) (res : Nat × String) (s' : S)
    (h : getTfsFromRegression ex progdir pk ef pvt qvt s = (res, s')) :
    ∀ e ∈ s'.invoked, e ∈ s.invoked ∨ e.1 = .regression := by
  intro e he
  simp only [getTfsFromRegression] at h
  split at h
  · injection h with hr hs
    subst hs
    simp only [pr] at he
    exact Or.inl he
  · injection h with hr hs
    subst hs
    simp only [osSystem, pr, List.mem_append, List.mem_singleton] at he
    rcases he with he | he
    · exact Or.inl he
    · subst he
      exact Or.inr rfl

lemma networkStep_invoked (ex : Exec) (progdir : String) (opts : Opts)
    (dn : Option String) (delim : String) (genome : Option String) (bm : String) (s : S) :
    ∀ e ∈ (networkStep ex progdir opts dn delim genome bm s).invoked,
      e ∈ s.invoked ∨ e.1 = .networkExport := by
  intro e he
  simp only [networkStep] at he
  split at he
  · simp only [osSystem, pr, List.mem_append, List.mem_singleton] at he
    rcases he with he | he
    · exact Or.inl he
    · subst he
      exact Or.inr rfl
  · exact Or.inl he

lemma regressionStep_invoked (ex : Exec) (progdir : String) (expr pvt qvt : Option String)
    (bm : String) (kr : Nat) (s : S) (res : Nat × Option String) (s' : S)
    (h : regressionStep ex progdir expr pvt qvt bm kr s = (res, s')) :
    ∀ e ∈ s'.invoked, e ∈ s.invoked ∨ e.1 = .regression := by
  intro e he
  simp only [regressionStep] at h
  split at h
  · split at h
    · rcases hg : getTfsFromRegression ex progdir bm (expr.getD "") pvt qvt s
          with ⟨⟨kr2, tfs⟩, s2⟩
      rw [hg] at h
      injection h with hr hs
      subst hs
      exact getTfsFromRegression_invoked ex progdir _ _ _ _ s _ _ hg e he
    · injection h with hr hs
      subst hs
      simp only [pr] at he
      exact Or.inl he
  · injection h with hr hs
    subst hs
    exact Or.inl he

lemma step4_invoked (ex : Exec) (progdir : String) (opts : Opts) (config : Config)
    (genome : Option String) (outfile : String) (binding_out : Option String)
    (bm : String) (kr : Nat) (s : S) :
    ∀ e ∈ (step4 ex progdir opts config genome outfile binding_out bm kr s).invoked,
      e ∈ s.invoked ∨ e.1 = .networkExport ∨ e.1 = .regression := by
  intro e he
  simp only [step4, withKey] at he
  rcases hdn : config.get "motifData" "doNetwork" with _ | dn
  · simp only [hdn, finish] at he
    exact Or.inl he
  · simp only [hdn] at he
    rcases hdl : config.get "motifData" "tfDelimiter" with _ | dl
    · simp only [hdl, finish] at he
      exact Or.inl he
    · simp only [hdl] at he
      have hnet := networkStep_invoked ex progdir opts (some dn)
        (resolveTfDelimiter (some dl)) genome bm s
      rcases hef : config.get "expressionData" "expressionFile" with _ | ef
      · simp only [hef, finish] at he
        rcases hnet e he with h1 | h1
        · exact Or.inl h1
        · exact Or.inr (Or.inl h1)
      · simp only [hef] at he
        rcases hpv : config.get "expressionData" "pvalThresh" with _ | pv
        · simp only [hpv, finish] at he
          rcases hnet e he with h1 | h1
          · exact Or.inl h1
          · exact Or.inr (Or.inl h1)
        · simp only [hpv] at he
          rcases hqv : config.get "expressionData" "qvalThresh" with _ | qv
          · simp only [hqv, finish] at he
            rcases hnet e he with h1 | h1
            · exact Or.inl h1
            · exact Or.inr (Or.inl h1)
          · simp only [hqv] at he
            rcases hreg : regressionStep ex progdir (some ef) (some pv) (some qv) bm kr
                (networkStep ex progdir opts (some dn) (resolveTfDelimiter (some dl))
                  genome bm s) with ⟨⟨kr2, tfs2⟩, s2⟩
            rw [hreg] at he
            have hmem : e ∈ s2.invoked := by
              split at he <;> simpa [finish, pr] using he
            rcases regressionStep_invoked ex progdir (some ef) (some pv) (some qv) bm kr
                _ _ _ hreg e hmem with h1 | h1
            · rcases hnet e h1 with h2 | h2
              · exact Or.inl h2
              · exact Or.inr (Or.inl h2)
            · exact Or.inr (Or.inr h1)

lemma matrixCheck_spec (ex : Exec) (progdir : String) (opts : Opts) (config : Config)
    (genome : Option String) (outfile : String) (binding_out : Option String)
    (bm : String) (kr : Nat) (s : S) :
    (∀ e ∈ (matrixCheck ex progdir opts config genome outfile binding_out bm kr s).invoked,
        e ∈ s.invoked ∨ e.1 = .networkExport ∨ e.1 = .regression)
  ∧ (kr ≠ 0 →
      (matrixCheck ex progdir opts config genome outfile binding_out bm kr s).terminal
          = .abortedMatrix
      ∧ (matrixCheck ex progdir opts config genome outfile binding_out bm kr s).invoked
          = s.invoked)
  ∧ (kr = 0 → anyFailed s.invoked .bindingMatrix = false →
      anyFailed (matrixCheck ex progdir opts config genome outfile binding_out bm kr s).invoked
        .bindingMatrix = false) := by
  refine ⟨?_, ?_, ?_⟩
  · intro e he
    unfold matrixCheck at he
    split at he
    · simp only [finish, pr] at he
      exact Or.inl he
    · exact step4_invoked ex progdir opts config genome outfile binding_out bm kr s e he
  · intro hkr
    unfold matrixCheck
    rw [if_pos hkr]
    exact ⟨rfl, by simp [finish, pr]⟩
  · intro hkr hf
    apply anyFailed_eq_false_iff.mpr
    intro e he hc
    unfold matrixCheck at he
    rw [if_neg (by omega)] at he
    rcases step4_invoked ex progdir opts config genome outfile binding_out bm kr s e he
      with h1 | h1 | h1
    · exact anyFailed_eq_false_iff.mp hf e h1 hc
    · exact absurd (hc.1.symm.trans h1) (by decide)
    · exact absurd (hc.1.symm.trans h1) (by decide)

lemma matrixCheck_clean_spec (ex : Exec) (progdir : String) (opts : Opts) (config : Config)
    (genome : Option String) (outfile : String) (binding_out : Option String)
    (bm : String) (kr : Nat) (s : S)
    (hs : ∀ e ∈ s.invoked, e.1 ≠ .bindingMatrix) :
    (∀ e ∈ (matrixCheck ex progdir opts config genome outfile binding_out bm kr s).invoked,
        e ∈ s.invoked ∨ e.1 = .networkExport ∨ e.1 = .regression)
  ∧ (anyFailed (matrixCheck ex progdir opts config genome outfile binding_out bm kr s).invoked
        .bindingMatrix = true →
      (matrixCheck ex progdir opts config genome outfile binding_out bm kr s).terminal
          = .abortedMatrix
      ∧ ∀ e ∈ (matrixCheck ex progdir opts config genome outfile binding_out bm kr s).invoked,
          e ∈ s.invoked) := by
  obtain ⟨m1, m2, m3⟩ := matrixCheck_spec ex progdir opts config genome outfile binding_out bm kr s
  have hsF : anyFailed s.invoked .bindingMatrix = false :=
    anyFailed_eq_false_iff.mpr fun e he hc => hs e he hc.1
  refine ⟨m1, ?_⟩
  intro hfail
  by_cases hkr : kr = 0
  · exact absurd ((m3 hkr hsF).symm.trans hfail) (by decide)
  · obtain ⟨t2, i2⟩ := m2 hkr
    exact ⟨t2, fun e he => i2 ▸ he⟩

lemma step3_spec (ex : Exec) (progdir : String) (opts : Opts) (config : Config)
    (tamofile genome : Option String) (outfile : String) (binding_out : Option String)
    (kr : Nat) (s : S)
    (hs : ∀ e ∈ s.invoked, e.1 ≠ .bindingMatrix) :
    (∀ e ∈ (step3 ex progdir opts config tamofile genome outfile binding_out kr s).invoked,
        e ∈ s.invoked ∨ e.1 = .bindingMatrix ∨ e.1 = .networkExport ∨ e.1 = .regression)
  ∧ (anyFailed (step3 ex progdir opts config tamofile genome outfile binding_out kr s).invoked
        .bindingMatrix = true →
      (step3 ex progdir opts config tamofile genome outfile binding_out kr s).terminal
          = .abortedMatrix
      ∧ ∀ e ∈ (step3 ex progdir opts config tamofile genome outfile binding_out kr s).invoked,
          e ∈ s.invoked ∨ e.1 = .bindingMatrix) := by
  have hsF : anyFailed s.invoked .bindingMatrix = false :=
    anyFailed_eq_false_iff.mpr fun e he hc => hs e he hc.1
  simp only [step3]
  split
  · split
    · -- the unassigned artifact variable is read: crash
      refine ⟨fun e he => Or.inl (by simpa [finish] using he), fun hfail => ?_⟩
      have hx : anyFailed s.invoked .bindingMatrix = true := by simpa [finish] using hfail
      exact absurd (hsF.symm.trans hx) (by decide)
    · rename_i bo
      split
      · -- nonempty artifact: the stage runs and the result is checked
        rcases hcb : createBindingMatrix ex progdir bo outfile (reSub ".xls" ".fsa" outfile)
            (tamofile.getD "") false s with ⟨⟨krm, bm⟩, s2⟩
        dsimp only
        have hsub2 : ∀ e ∈ s2.invoked, e ∈ s.invoked ∨ (e.1 = .bindingMatrix ∧ e.2.2 = krm) :=
          fun e he =>
            createBindingMatrix_invoked ex progdir bo outfile _ _ false s _ _ hcb e he
        obtain ⟨m1, m2, m3⟩ :=
          matrixCheck_spec ex progdir opts config genome outfile (some bo) bm krm s2
        by_cases hkr : krm = 0
        · have hs2F : anyFailed s2.invoked .bindingMatrix = false := by
            apply anyFailed_eq_false_iff.mpr
            intro e he hc
            rcases hsub2 e he with h1 | h1
            · exact hs e h1 hc.1
            · exact hc.2 (hkr ▸ h1.2)
          refine ⟨?_, ?_⟩
          · intro e he
            rcases m1 e he with h1 | h1 | h1
            · rcases hsub2 e h1 with h2 | h2
              · exact Or.inl h2
              · exact Or.inr (Or.inl h2.1)
            · exact Or.inr (Or.inr (Or.inl h1))
            · exact Or.inr (Or.inr (Or.inr h1))
          · intro hfail
            exact absurd ((m3 hkr hs2F).symm.trans hfail) (by decide)
        · obtain ⟨t2, i2⟩ := m2 hkr
          refine ⟨?_, fun _ => ⟨t2, ?_⟩⟩
          · intro e he
            rw [i2] at he
            rcases hsub2 e he with h1 | h1
            · exact Or.inl h1
            · exact Or.inr (Or.inl h1.1)
          · intro e he
            rw [i2] at he
            rcases hsub2 e he with h1 | h1
            · exact Or.inl h1
            · exact Or.inr h1.1
      · -- blank artifact: skip the stage
        obtain ⟨m1, m2⟩ := matrixCheck_clean_spec ex progdir opts config genome outfile
          (some bo) "" kr s hs
        refine ⟨?_, ?_⟩
        · intro e he
          rcases m1 e he with h1 | h1 | h1
          · exact Or.inl h1
          · exact Or.inr (Or.inr (Or.inl h1))
          · exact Or.inr (Or.inr (Or.inr h1))
        · intro hfail
          obtain ⟨t2, i2⟩ := m2 hfail
          exact ⟨t2, fun e he => Or.inl (i2 e he)⟩
  · -- blank outfile: skip the stage
    obtain ⟨m1, m2⟩ := matrixCheck_clean_spec ex progdir opts config genome outfile
      binding_out "" kr s hs
    refine ⟨?_, ?_⟩
    · intro e he
      rcases m1 e he with h1 | h1 | h1
      · exact Or.inl h1
      · exact Or.inr (Or.inr (Or.inl h1))
      · exact Or.inr (Or.inr (Or.inr h1))
    · intro hfail
      obtain ⟨t2, i2⟩ := m2 hfail
      exact ⟨t2, fun e he => Or.inl (i2 e he)⟩

lemma step2body_spec (ex : Exec) (progdir : String) (opts : Opts) (config : Config)
    (outfile : String) (tf gn nt ff : String) (kr : Nat) (s : S)
    (hs : ∀ e ∈ s.invoked, e.1 = .mkdirP ∨ e.1 = .mapping) :
    (∀ e ∈ (step2body ex progdir opts config outfile tf gn nt ff kr s).invoked,
        e ∈ s.invoked ∨ e.1 = .motifScan ∨ e.1 = .bindingMatrix ∨
        e.1 = .networkExport ∨ e.1 = .regression)
  ∧ (anyFailed (step2body ex progdir opts config outfile tf gn nt ff kr s).invoked
        .motifScan = true →
      (step2body ex progdir opts config outfile tf gn nt ff kr s).terminal = .abortedMotif
      ∧ ∀ e ∈ (step2body ex progdir opts config outfile tf gn nt ff kr s).invoked,
          e ∈ s.invoked ∨ e.1 = .motifScan)
  ∧ (anyFailed (step2body ex progdir opts config outfile tf gn nt ff kr s).invoked
        .bindingMatrix = true →
      (step2body ex progdir opts config outfile tf gn nt ff kr s).terminal = .abortedMatrix
      ∧ ∀ e ∈ (step2body ex progdir opts config outfile tf gn nt ff kr s).invoked,
          e ∈ s.invoked ∨ e.1 = .motifScan ∨ e.1 = .bindingMatrix) := by
  have hsB : ∀ e ∈ s.invoked, e.1 ≠ .bindingMatrix := by
    intro e he
    rcases hs e he with h | h <;> simp [h]
  simp only [step2body]
  split
  · -- motif gate entered
    split
    · -- both files exist: the scan runs or is cached
      rcases hms : motifScanning ex progdir _ _ _ _ outfile s with ⟨⟨krm, mbo⟩, s2⟩
      dsimp only
      have hsub2 : ∀ e ∈ s2.invoked, e ∈ s.invoked ∨ (e.1 = .motifScan ∧ e.2.2 = krm) :=
        fun e he => motifScanning_invoked ex progdir _ _ _ _ _ s _ _ hms e he
      have hs2B : ∀ e ∈ s2.invoked, e.1 ≠ .bindingMatrix := by
        intro e he
        rcases hsub2 e he with h1 | h1
        · exact hsB e h1
        · simp [h1.1]
      split
      · -- nonzero scan status: abort at the motif stage
        refine ⟨?_, fun _ => ⟨rfl, ?_⟩, ?_⟩
        · intro e he
          simp only [finish, pr] at he
          rcases hsub2 e he with h1 | h1
          · exact Or.inl h1
          · exact Or.inr (Or.inl h1.1)
        · intro e he
          simp only [finish, pr] at he
          rcases hsub2 e he with h1 | h1
          · exact Or.inl h1
          · exact Or.inr h1.1
        · intro hfail
          have hx : anyFailed s2.invoked .bindingMatrix = true := by
            simpa [finish, pr] using hfail
          have hF : anyFailed s2.invoked .bindingMatrix = false :=
            anyFailed_eq_false_iff.mpr fun e he hc => hs2B e he hc.1
          exact absurd (hF.symm.trans hx) (by decide)
      · -- zero scan status: continue
        rename_i hkrm
        have hkrm0 : krm = 0 := by omega
        obtain ⟨A, B⟩ := step3_spec ex progdir opts config _ _ outfile (some mbo) krm s2 hs2B
        refine ⟨?_, ?_, ?_⟩
        · intro e he
          rcases A e he with h1 | h1 | h1 | h1
          · rcases hsub2 e h1 with h2 | h2
            · exact Or.inl h2
            · exact Or.inr (Or.inl h2.1)
          · exact Or.inr (Or.inr (Or.inl h1))
          · exact Or.inr (Or.inr (Or.inr (Or.inl h1)))
          · exact Or.inr (Or.inr (Or.inr (Or.inr h1)))
        · intro hfail
          rcases anyFailed_eq_true.mp hfail with ⟨e, he, hc⟩
          rcases A e he with h1 | h1 | h1 | h1
          · rcases hsub2 e h1 with h2 | h2
            · rcases hs e h2 with h3 | h3 <;>
                exact absurd (hc.1.symm.trans h3) (by decide)
            · exact absurd (h2.2.trans hkrm0) hc.2
          · exact absurd (hc.1.symm.trans h1) (by decide)
          · exact absurd (hc.1.symm.trans h1) (by decide)
          · exact absurd (hc.1.symm.trans h1) (by decide)
        · intro hfail
          obtain ⟨t2, tr⟩ := B hfail
          refine ⟨t2, ?_⟩
          intro e he
          rcases tr e he with h1 | h1
          · rcases hsub2 e h1 with h2 | h2
            · exact Or.inl h2
            · exact Or.inr (Or.inl h2.1)
          · exact Or.inr (Or.inr h1)
    · -- a file is missing: warn, blank artifact, continue
      dsimp only
      split
      · -- the inherited failure flag is nonzero: abort at the motif stage
        refine ⟨?_, fun _ => ⟨rfl, ?_⟩, ?_⟩
        · intro e he
          simp only [finish, pr] at he
          exact Or.inl he
        · intro e he
          simp only [finish, pr] at he
          exact Or.inl he
        · intro hfail
          have hx : anyFailed s.invoked .bindingMatrix = true := by
            simpa [finish, pr] using hfail
          have hF : anyFailed s.invoked .bindingMatrix = false :=
            anyFailed_eq_false_iff.mpr fun e he hc => hsB e he hc.1
          exact absurd (hF.symm.trans hx) (by decide)
      · obtain ⟨A, B⟩ := step3_spec ex progdir opts config (some tf) (some gn)
          outfile (some "") kr
          (pr s "Missing FASTA file or TAMO file - check your config file and try again.")
          (fun e he => hsB e he)
        refine ⟨?_, ?_, ?_⟩
        · intro e he
          rcases A e he with h1 | h1 | h1 | h1
          · exact Or.inl h1
          · exact Or.inr (Or.inr (Or.inl h1))
          · exact Or.inr (Or.inr (Or.inr (Or.inl h1)))
          · exact Or.inr (Or.inr (Or.inr (Or.inr h1)))
        · intro hfail
          rcases anyFailed_eq_true.mp hfail with ⟨e, he, hc⟩
          rcases A e he with h1 | h1 | h1 | h1
          · rcases hs e h1 with h3 | h3 <;>
              exact absurd (hc.1.symm.trans h3) (by decide)
          · exact absurd (hc.1.symm.trans h1) (by decide)
          · exact absurd (hc.1.symm.trans h1) (by decide)
          · exact absurd (hc.1.symm.trans h1) (by decide)
        · intro hfail
          obtain ⟨t2, tr⟩ := B hfail
          refine ⟨t2, ?_⟩
          intro e he
          rcases tr e he with h1 | h1
          · exact Or.inl h1
          · exact Or.inr (Or.inr h1)
  · -- motif gate not entered: the artifact variable stays unassigned
    obtain ⟨A, B⟩ := step3_spec ex progdir opts config (some tf) (some gn)
      outfile none kr s hsB
    refine ⟨?_, ?_, ?_⟩
    · intro e he
      rcases A e he with h1 | h1 | h1 | h1
      · exact Or.inl h1
      · exact Or.inr (Or.inr (Or.inl h1))
      · exact Or.inr (Or.inr (Or.inr (Or.inl h1)))
      · exact Or.inr (Or.inr (Or.inr (Or.inr h1)))
    · intro hfail
      rcases anyFailed_eq_true.mp hfail with ⟨e, he, hc⟩
      rcases A e he with h1 | h1 | h1 | h1
      · rcases hs e h1 with h3 | h3 <;>
          exact absurd (hc.1.symm.trans h3) (by decide)
      · exact absurd (hc.1.symm.trans h1) (by decide)
      · exact absurd (hc.1.symm.trans h1) (by decide)
      · exact absurd (hc.1.symm.trans h1) (by decide)
    · intro hfail
      obtain ⟨t2, tr⟩ := B hfail
      refine ⟨t2, ?_⟩
      intro e he
      rcases tr e he with h1 | h1
      · exact Or.inl h1
      · exact Or.inr (Or.inr h1)

lemma step2_spec (ex : Exec) (progdir : String) (opts : Opts) (config : Config)
    (outfile : String) (kr : Nat) (s : S)
    (hs : ∀ e ∈ s.invoked, e.1 = .mkdirP ∨ e.1 = .mapping) :
    (∀ e ∈ (step2 ex progdir opts config outfile kr s).invoked,
        e ∈ s.invoked ∨ e.1 = .motifScan ∨ e.1 = .bindingMatrix ∨
        e.1 = .networkExport ∨ e.1 = .regression)
  ∧ (anyFailed (step2 ex progdir opts config outfile kr s).invoked .motifScan = true →
      (step2 ex progdir opts config outfile kr s).terminal = .abortedMotif
      ∧ ∀ e ∈ (step2 ex progdir opts config outfile kr s).invoked,
          e ∈ s.invoked ∨ e.1 = .motifScan)
  ∧ (anyFailed (step2 ex progdir opts config outfile kr s).invoked .bindingMatrix = true →
      (step2 ex progdir opts config outfile kr s).terminal = .abortedMatrix
      ∧ ∀ e ∈ (step2 ex progdir opts config outfile kr s).invoked,
          e ∈ s.invoked ∨ e.1 = .motifScan ∨ e.1 = .bindingMatrix) := by
  simp only [step2, withKey]
  rcases htf : config.get "motifData" "tamo_file" with _ | tf
  · simp only [htf]
    refine ⟨fun e he => Or.inl (by simpa [finish] using he), ?_, ?_⟩
    all_goals
      intro hfail
      rcases anyFailed_eq_true.mp (by simpa [finish] using hfail) with ⟨e, he, hc⟩
      rcases hs e he with h1 | h1 <;> exact absurd (hc.1.symm.trans h1) (by decide)
  · simp only [htf]
    rcases hgn : config.get "motifData" "genome" with _ | gn
    · simp only [hgn]
      refine ⟨fun e he => Or.inl (by simpa [finish] using he), ?_, ?_⟩
      all_goals
        intro hfail
        rcases anyFailed_eq_true.mp (by simpa [finish] using hfail) with ⟨e, he, hc⟩
        rcases hs e he with h1 | h1 <;> exact absurd (hc.1.symm.trans h1) (by decide)
    · simp only [hgn]
      rcases hnt : config.get "motifData" "numthreads" with _ | nt
      · simp only [hnt]
        refine ⟨fun e he => Or.inl (by simpa [finish] using he), ?_, ?_⟩
        all_goals
          intro hfail
          rcases anyFailed_eq_true.mp (by simpa [finish] using hfail) with ⟨e, he, hc⟩
          rcases hs e he with h1 | h1 <;> exact absurd (hc.1.symm.trans h1) (by decide)
      · simp only [hnt]
        rcases hff : config.get "chromatinData" "fastafile" with _ | ff
        · simp only [hff]
          refine ⟨fun e he => Or.inl (by simpa [finish] using he), ?_, ?_⟩
          all_goals
            intro hfail
            rcases anyFailed_eq_true.mp (by simpa [finish] using hfail) with ⟨e, he, hc⟩
            rcases hs e he with h1 | h1 <;> exact absurd (hc.1.symm.trans h1) (by decide)
        · simp only [hff]
          exact step2body_spec ex progdir opts config outfile tf gn nt ff kr s hs

/-! ## Claim C2: abort on a failed required stage -/

/-- Claim C2: whenever a required stage (gene-region mapping, motif scanning,
or binding-matrix construction) is invoked and returns a nonzero status, the
run terminates in the corresponding aborted state and no call site of a later
stage is ever invoked. -/
theorem c2_dependency_gating (ex : Exec) (progdir : String) (opts : Opts)
    (args : List String) (config : Config) (fs0 : FS) :
    (anyFailed (main ex progdir opts args config fs0).invoked .mapping = true →
      (main ex progdir opts args config fs0).terminal = .abortedMapping
      ∧ procCountAfter (main ex progdir opts args config fs0).invoked .mapping = 0)
  ∧ (anyFailed (main ex progdir opts args config fs0).invoked .motifScan = true →
      (main ex progdir opts args config fs0).terminal = .abortedMotif
      ∧ procCountAfter (main ex progdir opts args config fs0).invoked .motifScan = 0)
  ∧ (anyFailed (main ex progdir opts args config fs0).invoked .bindingMatrix = true →
      (main ex progdir opts args config fs0).terminal = .abortedMatrix
      ∧ procCountAfter (main ex progdir opts args config fs0).invoked .bindingMatrix = 0) := by
  simp only [main, withKey]
  split
  · -- usage exit: nothing invoked
    refine ⟨?_, ?_, ?_⟩ <;> intro hfail <;> simp [anyFailed] at hfail
  · rcases hgf : config.get "chromatinData" "genefile" with _ | gf
    · -- absent gene key: NoOptionError with nothing invoked
      simp only [hgf]
      refine ⟨?_, ?_, ?_⟩ <;> intro hfail <;> simp [anyFailed, finish] at hfail
    · simp only [hgf]
      rcases hbf : config.get "chromatinData" "bedfile" with _ | bf
      · simp only [hbf]
        refine ⟨?_, ?_, ?_⟩ <;> intro hfail <;> simp [anyFailed, finish] at hfail
      · simp only [hbf]
        rcases hxr : config.get "chromatinData" "xreffile" with _ | xr
        · simp only [hxr]
          refine ⟨?_, ?_, ?_⟩ <;> intro hfail <;> simp [anyFailed, finish] at hfail
        · simp only [hxr]
          rcases hw : config.get "chromatinData" "windowsize" with _ | w
          · simp only [hw]
            refine ⟨?_, ?_, ?_⟩ <;> intro hfail <;> simp [anyFailed, finish] at hfail
          · simp only [hw]
            -- all four chromatin keys present: run the mapping stage
            rcases hmap : mapGenesToRegions ex progdir gf (some xr) bf
                (resolveWindow (some w)) opts.outdir
                { fs := fs0, invoked := [], printed := [] } with ⟨r, s1⟩
            have hsub := mapGenesToRegions_invoked ex progdir gf (some xr) bf
              (resolveWindow (some w)) opts.outdir
              { fs := fs0, invoked := [], printed := [] } r s1 hmap
            cases r with
                  | error err =>
                    dsimp only
                    have hcls : ∀ e ∈ s1.invoked, e.1 = Proc.mkdirP := by
                      intro e he
                      rcases hsub e he with h1 | h1 | h1
                      · simp at h1
                      · exact h1
                      · exact absurd h1.2.choose_spec (by simp)
                    refine ⟨?_, ?_, ?_⟩ <;> intro hfail <;>
                      rcases anyFailed_eq_true.mp (by simpa [finish] using hfail) with ⟨e, he, hc⟩ <;>
                      exact absurd (hc.1.symm.trans (hcls e he)) (by decide)
                  | ok p =>
                    rcases p with ⟨kr, outfile⟩
                    dsimp only
                    split
                    · -- the mapping stage failed: abort, only mkdir and mapping invoked
                      have hcls : ∀ e ∈ s1.invoked, e.1 = Proc.mkdirP ∨ e.1 = Proc.mapping := by
                        intro e he
                        rcases hsub e he with h1 | h1 | h1
                        · simp at h1
                        · exact Or.inl h1
                        · exact Or.inr h1.1
                      refine ⟨?_, ?_, ?_⟩
                      · intro _
                        refine ⟨rfl, ?_⟩
                        apply procCountAfter_eq_zero
                        intro e he
                        simp only [finish, pr] at he
                        rcases hcls e he with h1 | h1 <;> first | (rw [h1]; decide) | rw [h1]
                      · intro hfail
                        rcases anyFailed_eq_true.mp (by simpa [finish, pr] using hfail) with ⟨e, he, hc⟩
                        rcases hcls e he with h1 | h1 <;>
                          exact absurd (hc.1.symm.trans h1) (by decide)
                      · intro hfail
                        rcases anyFailed_eq_true.mp (by simpa [finish, pr] using hfail) with ⟨e, he, hc⟩
                        rcases hcls e he with h1 | h1 <;>
                          exact absurd (hc.1.symm.trans h1) (by decide)
                    · -- the mapping stage succeeded: continue with the motif block
                      rename_i hkr
                      have hkr0 : kr = 0 := by omega
                      have hs1 : ∀ e ∈ s1.invoked, e.1 = Proc.mkdirP ∨ e.1 = Proc.mapping := by
                        intro e he
                        rcases hsub e he with h1 | h1 | h1
                        · simp at h1
                        · exact Or.inl h1
                        · exact Or.inr h1.1
                      obtain ⟨A2, B2, C2⟩ := step2_spec ex progdir opts config outfile kr s1 hs1
                      refine ⟨?_, ?_, ?_⟩
                      · -- a failed mapping entry cannot exist here
                        intro hfail
                        rcases anyFailed_eq_true.mp hfail with ⟨e, he, hc⟩
                        rcases A2 e he with h1 | h1 | h1 | h1 | h1
                        · rcases hsub e h1 with h2 | h2 | h2
                          · simp at h2
                          · exact absurd (hc.1.symm.trans h2) (by decide)
                          · rcases h2.2 with ⟨out, hout⟩
                            have hk : kr = e.2.2 := congrArg Prod.fst (Except.ok.inj hout)
                            exact absurd (hk ▸ hkr0) hc.2
                        · exact absurd (hc.1.symm.trans h1) (by decide)
                        · exact absurd (hc.1.symm.trans h1) (by decide)
                        · exact absurd (hc.1.symm.trans h1) (by decide)
                        · exact absurd (hc.1.symm.trans h1) (by decide)
                      · intro hfail
                        obtain ⟨t2, tr⟩ := B2 hfail
                        refine ⟨t2, ?_⟩
                        apply procCountAfter_eq_zero
                        intro e he
                        rcases tr e he with h1 | h1
                        · rcases hs1 e h1 with h2 | h2 <;> rw [h2] <;> decide
                        · rw [h1]
                      · intro hfail
                        obtain ⟨t2, tr⟩ := C2 hfail
                        refine ⟨t2, ?_⟩
                        apply procCountAfter_eq_zero
                        intro e he
                        rcases tr e he with h1 | h1 | h1
                        · rcases hs1 e h1 with h2 | h2 <;> rw [h2] <;> decide
                        · rw [h1]; decide
                        · rw [h1]

/-- Witness for C2 at three concrete worlds in which every external command
fails: the run aborts at the mapping, motif-scanning and binding-matrix
stages respectively. -/
theorem c2_dependency_gating_witness :
    (anyFailed (main exFail "" opts0 ["garnet.cfg"] (cfgPipe none none none none) []).invoked
        .mapping = true
      ∧ (main exFail "" opts0 ["garnet.cfg"] (cfgPipe none none none none) []).terminal
          = .abortedMapping)
  ∧ (anyFailed (main exFail "" opts0 ["garnet.cfg"] (cfgPipe none none none none)
        ["od", outfile0, "t.tamo", "f.fasta"]).invoked .motifScan = true
      ∧ (main exFail "" opts0 ["garnet.cfg"] (cfgPipe none none none none)
          ["od", outfile0, "t.tamo", "f.fasta"]).terminal = .abortedMotif)
  ∧ (anyFailed (main exFail "" opts0 ["garnet.cfg"] (cfgPipe none none none none)
        ["od", outfile0, "t.tamo", "f.fasta", mbo0]).invoked .bindingMatrix = true
      ∧ (main exFail "" opts0 ["garnet.cfg"] (cfgPipe none none none none)
          ["od", outfile0, "t.tamo", "f.fasta", mbo0]).terminal = .abortedMatrix) :=
  ⟨⟨by decide,
    ((c2_dependency_gating exFail "" opts0 ["garnet.cfg"] (cfgPipe none none none none)
      []).1 (by decide)).1⟩,
   ⟨by decide,
    ((c2_dependency_gating exFail "" opts0 ["garnet.cfg"] (cfgPipe none none none none)
      ["od", outfile0, "t.tamo", "f.fasta"]).2.1 (by decide)).1⟩,
   ⟨by decide,
    ((c2_dependency_gating exFail "" opts0 ["garnet.cfg"] (cfgPipe none none none none)
      ["od", outfile0, "t.tamo", "f.fasta", mbo0]).2.2 (by decide)).1⟩⟩

/-! ## Claim C4: required chromatin inputs -/

/-- Claim C4: when any one of the four chromatin inputs -- gene annotation
path, symbol cross-reference path, bed path, or window size -- has no key in
the configuration, the pipeline aborts before any stage's external command
is invoked.  The abort takes the form of an uncaught `NoOptionError` raised
by the `config.get` of the absent key (source lines 182-186), which all run
before the first stage command is built; the graceful missing-chromatin
message of line 196 is dead code for an absent key. -/
theorem c4_required_inputs (ex : Exec) (progdir : String) (opts : Opts)
    (args : List String) (config : Config) (fs0 : FS) (h1 : args.length = 1)
    (habs : config.get "chromatinData" "genefile" = none ∨
      config.get "chromatinData" "bedfile" = none ∨
      config.get "chromatinData" "xreffile" = none ∨
      config.get "chromatinData" "windowsize" = none) :
    (main ex progdir opts args config fs0).terminal = .crash .noOptionError
  ∧ (main ex progdir opts args config fs0).invoked = []
  ∧ exitCode (main ex progdir opts args config fs0).terminal = 1 := by
  have h1' : ¬ args.length ≠ 1 := by omega
  have hgoal : (main ex progdir opts args config fs0).terminal = .crash .noOptionError
      ∧ (main ex progdir opts args config fs0).invoked = [] := by
    rcases habs with h | h | h | h
    · simp [main, withKey, h1', h, finish]
    · rcases hgf : config.get "chromatinData" "genefile" with _ | gf <;>
        simp [main, withKey, h1', h, hgf, finish]
    · rcases hgf : config.get "chromatinData" "genefile" with _ | gf <;>
        rcases hbf : config.get "chromatinData" "bedfile" with _ | bf <;>
        simp [main, withKey, h1', h, hgf, hbf, finish]
    · rcases hgf : config.get "chromatinData" "genefile" with _ | gf <;>
        rcases hbf : config.get "chromatinData" "bedfile" with _ | bf <;>
        rcases hxr : config.get "chromatinData" "xreffile" with _ | xr <;>
        simp [main, withKey, h1', h, hgf, hbf, hxr, finish]
  exact ⟨hgoal.1, hgoal.2, by rw [hgoal.1]; rfl⟩

/-- Witness for C4: a configuration carrying gene, bed and cross-reference
paths but no windowsize key crashes with nothing invoked. -/
theorem c4_required_inputs_witness :
    (main ex0 "" opts0 ["garnet.cfg"] cfgNoWin []).terminal = .crash .noOptionError
  ∧ (main ex0 "" opts0 ["garnet.cfg"] cfgNoWin []).invoked = []
  ∧ exitCode (main ex0 "" opts0 ["garnet.cfg"] cfgNoWin []).terminal = 1 :=
  c4_required_inputs ex0 "" opts0 ["garnet.cfg"] cfgNoWin [] (by decide)
    (Or.inr (Or.inr (Or.inr (by decide))))

/-! ## Claim C1: caching -/

/-- Claim C1 fails: with every configuration key present, every stage output
already on disk and the network flag enabled, a rerun completes but is not
invocation-free — the network-export command is run again unconditionally,
because that block has no cache check. -/
theorem c1_counterexample :
    fsExists fsCached "od" = true ∧ fsExists fsCached outfile0 = true
  ∧ fsExists fsCached mbo0 = true ∧ fsExists fsCached pkl0 = true
  ∧ fsExists fsCached reg0 = true
  ∧ (main ex0 "" opts0 ["garnet.cfg"] (cfgPipe (some "True") (some "") (some "") (some ""))
      fsCached).terminal = .completed
  ∧ ((main ex0 "" opts0 ["garnet.cfg"] (cfgPipe (some "True") (some "") (some "") (some ""))
      fsCached).invoked = []) = False := by
  refine ⟨by decide, by decide, by decide, by decide, by decide, by decide,
    eq_false (by decide)⟩

/-! ## Reduction lemmas for runs whose stage outputs are cached -/

lemma main_cached_stage1 (ex : Exec) (progdir : String) (opts : Opts) (args : List String)
    (config : Config) (fs0 : FS) (od gf bf xr w : String)
    (h1 : args.length = 1)
    (hod : opts.outdir = some od)
    (hgf : config.get "chromatinData" "genefile" = some gf)
    (hbf : config.get "chromatinData" "bedfile" = some bf)
    (hxr : config.get "chromatinData" "xreffile" = some xr)
    (hw : config.get "chromatinData" "windowsize" = some w)
    (hdod : fsExists fs0 od = true)
    (hout : fsExists fs0 (od ++ "/events_to_genes.xls") = true) :
    main ex progdir opts args config fs0 =
      step2 ex progdir opts config (od ++ "/events_to_genes.xls") 0
        { fs := fs0, invoked := [],
          printed := ["File " ++ (od ++ "/events_to_genes.xls") ++
            " already exists. If you would like to replace it, delete and re-run"] } := by
  have h1' : ¬ args.length ≠ 1 := by omega
  simp only [main, withKey, h1', hgf, hbf, hxr, hw, hod, mapGenesToRegions, mkdirIfMissing,
    hdod, hout, pr, if_true, if_false, ite_false, ite_true]
  rw [if_neg (by decide : ¬ (0 : Nat) ≠ 0)]
  rfl

lemma networkStep_printed_mono (ex : Exec) (progdir : String) (opts : Opts)
    (dn : Option String) (delim : String) (genome : Option String) (bm : String) (s : S) :
    ∀ m ∈ s.printed, m ∈ (networkStep ex progdir opts dn delim genome bm s).printed := by
  intro m hm
  simp only [networkStep]
  split
  · simp only [osSystem, pr, List.mem_append]
    exact Or.inl hm
  · exact hm

lemma networkStep_skip (ex : Exec) (progdir : String) (opts : Opts) (dn0 : String)
    (delim : String) (genome : Option String) (bm : String) (s : S)
    (hdn : dn0 = "" ∨ dn0 = "False") :
    networkStep ex progdir opts (some dn0) delim genome bm s = s := by
  rcases hdn with h | h <;> subst h <;> simp [networkStep]

lemma regressionStep_blank (ex : Exec) (progdir : String) (expr pvt qvt : Option String)
    (kr : Nat) (s : S) :
    (regressionStep ex progdir expr pvt qvt "" kr s).1 = (kr, none)
  ∧ ((regressionStep ex progdir expr pvt qvt "" kr s).2 = s ∨
      (regressionStep ex progdir expr pvt qvt "" kr s).2 =
        pr s "Cannot perform regression because binding matrix or expression datasets are missing") := by
  simp only [regressionStep]
  split
  · rw [if_neg (by simp)]
    exact ⟨rfl, Or.inr rfl⟩
  · exact ⟨rfl, Or.inl rfl⟩

lemma step4_blank_matrix (ex : Exec) (progdir : String) (opts : Opts) (config : Config)
    (genome : Option String) (outfile : String) (binding_out : Option String) (s : S)
    (dn0 dl0 ef0 pv0 qv0 : String)
    (hdn : config.get "motifData" "doNetwork" = some dn0)
    (hdl : config.get "motifData" "tfDelimiter" = some dl0)
    (hef : config.get "expressionData" "expressionFile" = some ef0)
    (hpv : config.get "expressionData" "pvalThresh" = some pv0)
    (hqv : config.get "expressionData" "qvalThresh" = some qv0) :
    (step4 ex progdir opts config genome outfile binding_out "" 0 s).terminal = .completed
  ∧ (∀ e ∈ (step4 ex progdir opts config genome outfile binding_out "" 0 s).invoked,
      e ∈ s.invoked ∨ e.1 = .networkExport)
  ∧ (step4 ex progdir opts config genome outfile binding_out "" 0 s).outfile = some outfile
  ∧ (step4 ex progdir opts config genome outfile binding_out "" 0 s).bindingOut = binding_out
  ∧ (step4 ex progdir opts config genome outfile binding_out "" 0 s).bindingMatrix = some ""
  ∧ (step4 ex progdir opts config genome outfile binding_out "" 0 s).regressionOut = none
  ∧ ∀ m ∈ s.printed,
      m ∈ (step4 ex progdir opts config genome outfile binding_out "" 0 s).printed := by
  simp only [step4, withKey, hdn, hdl, hef, hpv, hqv]
  rcases hreg : regressionStep ex progdir (some ef0) (some pv0) (some qv0) "" 0
      (networkStep ex progdir opts (some dn0) (resolveTfDelimiter (some dl0)) genome "" s)
      with ⟨⟨kr2, tfs2⟩, s2⟩
  obtain ⟨hfst, hsnd⟩ := regressionStep_blank ex progdir (some ef0) (some pv0) (some qv0) 0
    (networkStep ex progdir opts (some dn0) (resolveTfDelimiter (some dl0)) genome "" s)
  rw [hreg] at hfst hsnd
  dsimp only at hfst hsnd
  have hkr2 : kr2 = 0 := congrArg Prod.fst hfst
  have htfs2 : tfs2 = none := congrArg Prod.snd hfst
  dsimp only
  rw [if_neg (by omega)]
  have hinv : s2.invoked = (networkStep ex progdir opts (some dn0)
      (resolveTfDelimiter (some dl0)) genome "" s).invoked := by
    rcases hsnd with h | h
    · rw [h]
    · rw [h]
      simp [pr]
  have hprt : ∀ m ∈ (networkStep ex progdir opts (some dn0)
      (resolveTfDelimiter (some dl0)) genome "" s).printed, m ∈ s2.printed := by
    intro m hm
    rcases hsnd with h | h
    · rw [h]
      exact hm
    · rw [h]
      simp only [pr, List.mem_append]
      exact Or.inl hm
  refine ⟨rfl, ?_, rfl, rfl, rfl, by simp [finish, htfs2], ?_⟩
  · intro e he
    simp only [finish] at he
    rw [hinv] at he
    exact networkStep_invoked ex progdir opts (some dn0)
      (resolveTfDelimiter (some dl0)) genome "" s e he
  · intro m hm
    simp only [finish]
    exact hprt m (networkStep_printed_mono ex progdir opts (some dn0)
      (resolveTfDelimiter (some dl0)) genome "" s m hm)

lemma main_cached_chain (ex : Exec) (progdir : String) (opts : Opts) (args : List String)
    (config : Config) (fs0 : FS) (od gf bf xr w tf nt gm ff : String)
    (h1 : args.length = 1) (hod : opts.outdir = some od)
    (hgf : config.get "chromatinData" "genefile" = some gf)
    (hbf : config.get "chromatinData" "bedfile" = some bf)
    (hxr : config.get "chromatinData" "xreffile" = some xr)
    (hw : config.get "chromatinData" "windowsize" = some w)
    (ht : config.get "motifData" "tamo_file" = some tf) (htne : tf ≠ "")
    (hgm : config.get "motifData" "genome" = some gm)
    (hnt : config.get "motifData" "numthreads" = some nt)
    (hf : config.get "chromatinData" "fastafile" = some ff) (hfne : ff ≠ "")
    (hdod : fsExists fs0 od = true)
    (hout : fsExists fs0 (od ++ "/events_to_genes.xls") = true)
    (hts : fsExists fs0 tf = true) (hfs : fsExists fs0 ff = true)
    (hmbo : fsExists fs0 (reSub ".xls" "_with_motifs.txt" (od ++ "/events_to_genes.xls")) = true)
    (hpkl : fsExists fs0 (reSub ".tgm" ".pkl" (reSub ".txt" ".tgm"
        (reSub ".xls" "_with_motifs.txt" (od ++ "/events_to_genes.xls")))) = true) :
    ∃ pl : List String, main ex progdir opts args config fs0 =
      step4 ex progdir opts config (some gm) (od ++ "/events_to_genes.xls")
        (some (reSub ".xls" "_with_motifs.txt" (od ++ "/events_to_genes.xls")))
        (reSub ".tgm" ".pkl" (reSub ".txt" ".tgm"
          (reSub ".xls" "_with_motifs.txt" (od ++ "/events_to_genes.xls")))) 0
        { fs := fs0, invoked := [], printed := pl } := by
  have houtne : od ++ "/events_to_genes.xls" ≠ "" :=
    append_ne_empty_right od "/events_to_genes.xls" (by decide)
  have hmbone : reSub ".xls" "_with_motifs.txt" (od ++ "/events_to_genes.xls") ≠ "" :=
    reSub_ne_empty ".xls" "_with_motifs.txt" (od ++ "/events_to_genes.xls")
      (by decide) houtne
  rw [main_cached_stage1 ex progdir opts args config fs0 od gf bf xr w h1 hod hgf hbf hxr
    hw hdod hout]
  simp only [step2, withKey, ht, hgm, hnt, hf, step2body]
  rw [if_pos ⟨by simp, by simp [htne], by simp, by simp, by simp [hfne]⟩]
  simp [motifScanning, step3, createBindingMatrix, matrixCheck, pr,
    hts, hfs, hmbo, hpkl, houtne, hmbone]
  exact ⟨_, rfl⟩

lemma step4_cached (ex : Exec) (progdir : String) (opts : Opts) (config : Config)
    (gm outfile mbo pkl : String) (fs0 : FS) (pl : List String) (dl0 ef0 pv0 qv0 : String)
    (hdn : config.get "motifData" "doNetwork" = some "" ∨
      config.get "motifData" "doNetwork" = some "False")
    (hdl : config.get "motifData" "tfDelimiter" = some dl0)
    (hef : config.get "expressionData" "expressionFile" = some ef0)
    (hpv : config.get "expressionData" "pvalThresh" = some pv0)
    (hqv : config.get "expressionData" "qvalThresh" = some qv0)
    (hpklne : pkl ≠ "")
    (hpklfs : fsExists fs0 pkl = true)
    (hregfs : fsExists fs0 (reSub ".pkl" "regression_results.xls" pkl) = true) :
    (step4 ex progdir opts config (some gm) outfile (some mbo) pkl 0
        { fs := fs0, invoked := [], printed := pl }).invoked = []
  ∧ (step4 ex progdir opts config (some gm) outfile (some mbo) pkl 0
        { fs := fs0, invoked := [], printed := pl }).terminal = .completed
  ∧ (step4 ex progdir opts config (some gm) outfile (some mbo) pkl 0
        { fs := fs0, invoked := [], printed := pl }).outfile = some outfile
  ∧ (step4 ex progdir opts config (some gm) outfile (some mbo) pkl 0
        { fs := fs0, invoked := [], printed := pl }).bindingOut = some mbo
  ∧ (step4 ex progdir opts config (some gm) outfile (some mbo) pkl 0
        { fs := fs0, invoked := [], printed := pl }).bindingMatrix = some pkl
  ∧ ((step4 ex progdir opts config (some gm) outfile (some mbo) pkl 0
        { fs := fs0, invoked := [], printed := pl }).regressionOut = none ∨
      (step4 ex progdir opts config (some gm) outfile (some mbo) pkl 0
        { fs := fs0, invoked := [], printed := pl }).regressionOut
          = some (reSub ".pkl" "regression_results.xls" pkl)) := by
  obtain ⟨dn0, hdn0, hdn0v⟩ : ∃ dn0, config.get "motifData" "doNetwork" = some dn0 ∧
      (dn0 = "" ∨ dn0 = "False") := by
    rcases hdn with h | h
    · exact ⟨"", h, Or.inl rfl⟩
    · exact ⟨"False", h, Or.inr rfl⟩
  simp only [step4, withKey, hdn0, hdl, hef, hpv, hqv]
  rw [networkStep_skip ex progdir opts dn0 (resolveTfDelimiter (some dl0)) (some gm) pkl
    _ hdn0v]
  simp only [regressionStep]
  by_cases hE : ((some ef0 : Option String) ≠ none ∧ (some ef0 : Option String) ≠ some "")
  · rw [if_pos hE]
    by_cases hEx : fsExists fs0 ef0 = true
    · simp [getTfsFromRegression, pr, finish, hpklne, hpklfs, hEx, hregfs]
    · simp [finish, pr, hEx]
  · rw [if_neg hE]
    simp [finish]

lemma fsExists_mono (fs add : FS) (p : String) (h : fsExists fs p = true) :
    fsExists (fs ++ add) p = true := by
  have hm : p ∈ fs := List.elem_iff.mp h
  exact List.elem_iff.mpr (List.mem_append_left add hm)

lemma mkdirIfMissing_fs_mono (ex : Exec) (d : String) (s : S) (p : String)
    (h : fsExists s.fs p = true) : fsExists (mkdirIfMissing ex d s).fs p = true := by
  unfold mkdirIfMissing
  split
  · exact h
  · simp only [osSystem]
    exact fsExists_mono _ _ _ h

lemma step4_blank_expr (ex : Exec) (progdir : String) (opts : Opts) (config : Config)
    (genome : Option String) (outfile : String) (binding_out : Option String)
    (bm : String) (s : S) (dn0 dl0 pv0 qv0 : String)
    (hdn : config.get "motifData" "doNetwork" = some dn0)
    (hdl : config.get "motifData" "tfDelimiter" = some dl0)
    (hE : config.get "expressionData" "expressionFile" = some "")
    (hpv : config.get "expressionData" "pvalThresh" = some pv0)
    (hqv : config.get "expressionData" "qvalThresh" = some qv0) :
    (step4 ex progdir opts config genome outfile binding_out bm 0 s).terminal = .completed
  ∧ (∀ e ∈ (step4 ex progdir opts config genome outfile binding_out bm 0 s).invoked,
      e ∈ s.invoked ∨ e.1 = .networkExport)
  ∧ (step4 ex progdir opts config genome outfile binding_out bm 0 s).regressionOut = none := by
  have hEF : ¬ ((some "" : Option String) ≠ none ∧ (some "" : Option String) ≠ some "") := by
    simp
  simp only [step4, withKey, hdn, hdl, hE, hpv, hqv, regressionStep, if_neg hEF]
  rw [if_neg (by decide : ¬ (0 : Nat) ≠ 0)]
  refine ⟨rfl, ?_, rfl⟩
  intro e he
  simp only [finish] at he
  exact networkStep_invoked ex progdir opts (some dn0) (resolveTfDelimiter (some dl0))
    genome bm s e he

lemma step4_absent_expr (ex : Exec) (progdir : String) (opts : Opts) (config : Config)
    (genome : Option String) (outfile : String) (binding_out : Option String)
    (bm : String) (kr : Nat) (s : S) (dn0 dl0 : String)
    (hdn : config.get "motifData" "doNetwork" = some dn0)
    (hdl : config.get "motifData" "tfDelimiter" = some dl0)
    (hE : config.get "expressionData" "expressionFile" = none) :
    (step4 ex progdir opts config genome outfile binding_out bm kr s).terminal
      = .crash .noOptionError
  ∧ (∀ e ∈ (step4 ex progdir opts config genome outfile binding_out bm kr s).invoked,
      e ∈ s.invoked ∨ e.1 = .networkExport)
  ∧ (step4 ex progdir opts config genome outfile binding_out bm kr s).regressionOut
      = none := by
  simp only [step4, withKey, hdn, hdl, hE]
  refine ⟨rfl, ?_, rfl⟩
  intro e he
  simp only [finish] at he
  exact networkStep_invoked ex progdir opts (some dn0) (resolveTfDelimiter (some dl0))
    genome bm s e he

lemma step4_missing_expr (ex : Exec) (progdir : String) (opts : Opts) (config : Config)
    (genome : Option String) (outfile : String) (binding_out : Option String)
    (bm : String) (s : S) (e0 dl0 pv0 qv0 : String)
    (hdn : config.get "motifData" "doNetwork" = some "" ∨
      config.get "motifData" "doNetwork" = some "False")
    (hdl : config.get "motifData" "tfDelimiter" = some dl0)
    (hE : config.get "expressionData" "expressionFile" = some e0) (hene : e0 ≠ "")
    (hpv : config.get "expressionData" "pvalThresh" = some pv0)
    (hqv : config.get "expressionData" "qvalThresh" = some qv0)
    (hex : fsExists s.fs e0 = false) :
    (step4 ex progdir opts config genome outfile binding_out bm 0 s).terminal = .completed
  ∧ (step4 ex progdir opts config genome outfile binding_out bm 0 s).invoked = s.invoked
  ∧ (step4 ex progdir opts config genome outfile binding_out bm 0 s).regressionOut = none
  ∧ "Cannot perform regression because binding matrix or expression datasets are missing"
      ∈ (step4 ex progdir opts config genome outfile binding_out bm 0 s).printed := by
  have hgateT : (some e0 : Option String) ≠ none ∧ (some e0 : Option String) ≠ some "" :=
    ⟨by simp, by simp [hene]⟩
  have hinnF : ¬ (bm ≠ "" ∧ fsExists s.fs bm = true ∧ fsExists s.fs e0 = true) := by
    rintro ⟨-, -, h3⟩
    rw [hex] at h3
    exact absurd h3 (by decide)
  obtain ⟨dn0, hdn0, hdn0v⟩ : ∃ dn0, config.get "motifData" "doNetwork" = some dn0 ∧
      (dn0 = "" ∨ dn0 = "False") := by
    rcases hdn with h | h
    · exact ⟨"", h, Or.inl rfl⟩
    · exact ⟨"False", h, Or.inr rfl⟩
  simp only [step4, withKey, hdn0, hdl, hE, hpv, hqv]
  rw [networkStep_skip ex progdir opts dn0 (resolveTfDelimiter (some dl0)) genome bm s hdn0v]
  simp only [regressionStep, Option.getD_some]
  rw [if_pos hgateT]
  rw [if_neg hinnF]
  dsimp only
  rw [if_neg (by decide : ¬ (0 : Nat) ≠ 0)]
  refine ⟨rfl, by simp [finish, pr], rfl, by simp [finish, pr]⟩

/-! ## Claim C9: the unassigned artifact variable -/

/-- Claim C9: when the run reaches the motif-scanning block with a successful
first stage and every configuration key the block reads is present, but the
block's gate is not entered because the tamo file value or the fasta file
value is blank (the only inhabitable gate-false cases, since an absent key
raises `NoOptionError` at its read instead), the artifact variable is never
assigned, so the binding-matrix gate crashes with an unbound-local error
instead of skipping the later stages with a blank artifact reference. -/
theorem c9_unbound_artifact (ex : Exec) (progdir : String) (opts : Opts)
    (args : List String) (config : Config) (fs0 : FS) (od gf bf xr w tf gn nt ff : String)
    (h1 : args.length = 1) (hod : opts.outdir = some od)
    (hgf : config.get "chromatinData" "genefile" = some gf)
    (hbf : config.get "chromatinData" "bedfile" = some bf)
    (hxr : config.get "chromatinData" "xreffile" = some xr)
    (hw : config.get "chromatinData" "windowsize" = some w)
    (hdod : fsExists fs0 od = true)
    (hout : fsExists fs0 (od ++ "/events_to_genes.xls") = true)
    (ht : config.get "motifData" "tamo_file" = some tf)
    (hgn : config.get "motifData" "genome" = some gn)
    (hnt : config.get "motifData" "numthreads" = some nt)
    (hf : config.get "chromatinData" "fastafile" = some ff)
    (hgate : tf = "" ∨ ff = "") :
    (main ex progdir opts args config fs0).terminal = .crash .unboundLocal
  ∧ (main ex progdir opts args config fs0).invoked = []
  ∧ (main ex progdir opts args config fs0).bindingOut = none
  ∧ (main ex progdir opts args config fs0).bindingMatrix = none := by
  have houtne : od ++ "/events_to_genes.xls" ≠ "" :=
    append_ne_empty_right od "/events_to_genes.xls" (by decide)
  rw [main_cached_stage1 ex progdir opts args config fs0 od gf bf xr w h1 hod hgf hbf hxr
    hw hdod hout]
  simp only [step2, withKey, ht, hgn, hnt, hf, step2body]
  rw [if_neg ?hg]
  case hg =>
    rintro ⟨-, ht2, -, -, hf2⟩
    rcases hgate with h | h
    · exact ht2 (by rw [h])
    · exact hf2 (by rw [h])
  simp only [step3]
  rw [if_pos houtne]
  exact ⟨rfl, rfl, rfl, rfl⟩

/-- Witness for C9: a configuration with every key present up to the
binding-matrix gate whose tamo file value is blank crashes at that gate. -/
theorem c9_unbound_artifact_witness :
    (main ex0 "" opts0 ["garnet.cfg"] (cfgPipe9 : Config) ["od", outfile0]).terminal
      = .crash .unboundLocal :=
  (c9_unbound_artifact ex0 "" opts0 ["garnet.cfg"] cfgPipe9 ["od", outfile0]
    "od" "g.txt" "b.bed" "x.txt" "2000" "" "hg19" "4" "f.fasta"
    (by decide) (by decide) (by decide) (by decide) (by decide) (by decide)
    (by decide) (by decide) (by decide) (by decide) (by decide) (by decide)
    (Or.inl rfl)).1

/-! ## Claim C5: missing motif files are a warning, not a failure -/

/-- Claim C5: when every configuration key the run reads is present, the
motif parameters are nonempty, but the tamo or fasta file does not exist on
disk, the motif stage is skipped with a warning, the run is not aborted, the
downstream artifact references are blank, and neither the motif-scanning nor
the binding-matrix nor the regression command is ever invoked; the run
completes. -/
theorem c5_missing_motif_files (ex : Exec) (progdir : String) (opts : Opts)
    (args : List String) (config : Config) (fs0 : FS)
    (od gf bf xr w tf nt gm ff dn0 dl0 ef0 pv0 qv0 : String)
    (h1 : args.length = 1) (hod : opts.outdir = some od)
    (hgf : config.get "chromatinData" "genefile" = some gf)
    (hbf : config.get "chromatinData" "bedfile" = some bf)
    (hxr : config.get "chromatinData" "xreffile" = some xr)
    (hw : config.get "chromatinData" "windowsize" = some w)
    (hdod : fsExists fs0 od = true)
    (hout : fsExists fs0 (od ++ "/events_to_genes.xls") = true)
    (ht : config.get "motifData" "tamo_file" = some tf) (htne : tf ≠ "")
    (hgm : config.get "motifData" "genome" = some gm) (_hgmne : gm ≠ "")
    (hnt : config.get "motifData" "numthreads" = some nt)
    (hf : config.get "chromatinData" "fastafile" = some ff) (hfne : ff ≠ "")
    (hdn : config.get "motifData" "doNetwork" = some dn0)
    (hdl : config.get "motifData" "tfDelimiter" = some dl0)
    (hef : config.get "expressionData" "expressionFile" = some ef0)
    (hpv : config.get "expressionData" "pvalThresh" = some pv0)
    (hqv : config.get "expressionData" "qvalThresh" = some qv0)
    (hmiss : fsExists fs0 tf = false ∨ fsExists fs0 ff = false) :
    (main ex progdir opts args config fs0).terminal = .completed
  ∧ anyProc (main ex progdir opts args config fs0).invoked .motifScan = false
  ∧ anyProc (main ex progdir opts args config fs0).invoked .bindingMatrix = false
  ∧ anyProc (main ex progdir opts args config fs0).invoked .regression = false
  ∧ (main ex progdir opts args config fs0).bindingOut = some ""
  ∧ (main ex progdir opts args config fs0).bindingMatrix = some ""
  ∧ "Missing FASTA file or TAMO file - check your config file and try again."
      ∈ (main ex progdir opts args config fs0).printed := by
  have houtne : od ++ "/events_to_genes.xls" ≠ "" :=
    append_ne_empty_right od "/events_to_genes.xls" (by decide)
  have hfilesF : ¬ (fsExists fs0 tf = true ∧ fsExists fs0 ff = true) := by
    rintro ⟨ha, hb⟩
    rcases hmiss with h | h
    · rw [h] at ha
      exact absurd ha (by decide)
    · rw [h] at hb
      exact absurd hb (by decide)
  rw [main_cached_stage1 ex progdir opts args config fs0 od gf bf xr w h1 hod hgf hbf hxr
    hw hdod hout]
  simp only [step2, withKey, ht, hgm, hnt, hf, step2body]
  rw [if_pos ⟨by simp, by simp [htne], by simp, by simp, by simp [hfne]⟩]
  simp only [Option.getD_some, hfilesF, if_false, ite_false]
  rw [if_neg (by decide : ¬ (0 : Nat) ≠ 0)]
  simp only [step3]
  rw [if_pos houtne]
  rw [if_neg (by simp : ¬ ("" : String) ≠ "")]
  simp only [matrixCheck]
  rw [if_neg (by decide : ¬ (0 : Nat) ≠ 0)]
  obtain ⟨B1, B2, B3, B4, B5, B6, B7⟩ := step4_blank_matrix ex progdir opts config (some gm)
    (od ++ "/events_to_genes.xls") (some "")
    (pr ⟨fs0, [],
      ["File " ++ (od ++ "/events_to_genes.xls") ++
        " already exists. If you would like to replace it, delete and re-run"]⟩
      "Missing FASTA file or TAMO file - check your config file and try again.")
    dn0 dl0 ef0 pv0 qv0 hdn hdl hef hpv hqv
  refine ⟨B1, ?_, ?_, ?_, B4, B5, ?_⟩
  · apply anyProc_eq_false_of
    intro e he
    rcases B2 e he with h1 | h1
    · simp [pr] at h1
    · rw [h1]
      decide
  · apply anyProc_eq_false_of
    intro e he
    rcases B2 e he with h1 | h1
    · simp [pr] at h1
    · rw [h1]
      decide
  · apply anyProc_eq_false_of
    intro e he
    rcases B2 e he with h1 | h1
    · simp [pr] at h1
    · rw [h1]
      decide
  · apply B7
    simp [pr]

/-- Witness for C5: every key is configured but the tamo file is not on
disk; the run completes with a blank artifact reference. -/
theorem c5_missing_motif_files_witness :
    fsExists ["od", outfile0] "t.tamo" = false
  ∧ (main ex0 "" opts0 ["garnet.cfg"] (cfgPipe (some "False") (some "") (some "") (some ""))
      ["od", outfile0]).terminal = .completed
  ∧ (main ex0 "" opts0 ["garnet.cfg"] (cfgPipe (some "False") (some "") (some "") (some ""))
      ["od", outfile0]).bindingOut = some "" :=
  ⟨by decide,
   (c5_missing_motif_files ex0 "" opts0 ["garnet.cfg"]
     (cfgPipe (some "False") (some "") (some "") (some "")) ["od", outfile0]
     "od" "g.txt" "b.bed" "x.txt" "2000" "t.tamo" "4" "hg19" "f.fasta" "False" "." "" "" ""
     (by decide) (by decide) (by decide) (by decide) (by decide) (by decide) (by decide)
     (by decide) (by decide) (by decide) (by decide) (by decide) (by decide) (by decide)
     (by decide) (by decide) (by decide) (by decide) (by decide) (by decide)
     (Or.inl (by decide))).1,
   (c5_missing_motif_files ex0 "" opts0 ["garnet.cfg"]
     (cfgPipe (some "False") (some "") (some "") (some "")) ["od", outfile0]
     "od" "g.txt" "b.bed" "x.txt" "2000" "t.tamo" "4" "hg19" "f.fasta" "False" "." "" "" ""
     (by decide) (by decide) (by decide) (by decide) (by decide) (by decide) (by decide)
     (by decide) (by decide) (by decide) (by decide) (by decide) (by decide) (by decide)
     (by decide) (by decide) (by decide) (by decide) (by decide) (by decide)
     (Or.inl (by decide))).2.2.2.2.1⟩

/-! ## Claim C6: the expression configuration -/

/-- Claim C6 fails on the absent-key half: with every other key present and
every stage output cached, omitting the expressionFile key does not yield a
completed run with regression skipped -- `config.get` raises `NoOptionError`
at source line 248 and the run crashes with exit status one. -/
theorem c6_counterexample :
    (cfgPipe (some "False") none (some "") (some "")).get
        "expressionData" "expressionFile" = none
  ∧ ((main ex0 "" opts0 ["garnet.cfg"] (cfgPipe (some "False") none (some "") (some ""))
      fsCached).terminal = .completed) = False
  ∧ (main ex0 "" opts0 ["garnet.cfg"] (cfgPipe (some "False") none (some "") (some ""))
      fsCached).terminal = .crash .noOptionError
  ∧ exitCode (main ex0 "" opts0 ["garnet.cfg"]
      (cfgPipe (some "False") none (some "") (some "")) fsCached).terminal = 1 := by
  refine ⟨by decide, eq_false (by decide), by decide, by decide⟩

/-- Claim C6 amended: with the artifact-producing stages cached and every
other key present, omitting the expressionFile key crashes the run with an
uncaught `NoOptionError` when the regression block reads it (exit status one;
regression is never invoked and its result never assigned, but the terminal
state is a crash, not Completed); a present nonempty expression path naming a
nonexistent file completes with regression skipped through the
file-nonexistence branch and its warning printed. -/
theorem c6_amended (ex : Exec) (progdir : String) (opts : Opts)
    (args : List String) (config : Config) (fs0 : FS)
    (od gf bf xr w tf nt gm ff dl0 pv0 qv0 : String)
    (h1 : args.length = 1) (hod : opts.outdir = some od)
    (hgf : config.get "chromatinData" "genefile" = some gf)
    (hbf : config.get "chromatinData" "bedfile" = some bf)
    (hxr : config.get "chromatinData" "xreffile" = some xr)
    (hw : config.get "chromatinData" "windowsize" = some w)
    (ht : config.get "motifData" "tamo_file" = some tf) (htne : tf ≠ "")
    (hgm : config.get "motifData" "genome" = some gm)
    (hnt : config.get "motifData" "numthreads" = some nt)
    (hf : config.get "chromatinData" "fastafile" = some ff) (hfne : ff ≠ "")
    (hdod : fsExists fs0 od = true)
    (hout : fsExists fs0 (od ++ "/events_to_genes.xls") = true)
    (hts : fsExists fs0 tf = true) (hfs : fsExists fs0 ff = true)
    (hmbo : fsExists fs0 (reSub ".xls" "_with_motifs.txt" (od ++ "/events_to_genes.xls")) = true)
    (hpkl : fsExists fs0 (reSub ".tgm" ".pkl" (reSub ".txt" ".tgm"
        (reSub ".xls" "_with_motifs.txt" (od ++ "/events_to_genes.xls")))) = true)
    (hdn : config.get "motifData" "doNetwork" = some "" ∨
      config.get "motifData" "doNetwork" = some "False")
    (hdl : config.get "motifData" "tfDelimiter" = some dl0)
    (hpv : config.get "expressionData" "pvalThresh" = some pv0)
    (hqv : config.get "expressionData" "qvalThresh" = some qv0) :
    (config.get "expressionData" "expressionFile" = none →
      (main ex progdir opts args config fs0).terminal = .crash .noOptionError
      ∧ exitCode (main ex progdir opts args config fs0).terminal = 1
      ∧ anyProc (main ex progdir opts args config fs0).invoked .regression = false
      ∧ (main ex progdir opts args config fs0).regressionOut = none)
  ∧ (∀ e0, config.get "expressionData" "expressionFile" = some e0 → e0 ≠ "" →
      fsExists fs0 e0 = false →
      (main ex progdir opts args config fs0).terminal = .completed
      ∧ anyProc (main ex progdir opts args config fs0).invoked .regression = false
      ∧ (main ex progdir opts args config fs0).regressionOut = none
      ∧ "Cannot perform regression because binding matrix or expression datasets are missing"
          ∈ (main ex progdir opts args config fs0).printed) := by
  obtain ⟨pl, hEq⟩ := main_cached_chain ex progdir opts args config fs0
    od gf bf xr w tf nt gm ff h1 hod hgf hbf hxr hw ht htne hgm hnt hf hfne
    hdod hout hts hfs hmbo hpkl
  rw [hEq]
  constructor
  · intro hE
    have hdnP : ∃ dn0, config.get "motifData" "doNetwork" = some dn0 := by
      rcases hdn with h | h
      · exact ⟨"", h⟩
      · exact ⟨"False", h⟩
    obtain ⟨dn0, hdn0⟩ := hdnP
    obtain ⟨N1, N2, N3⟩ := step4_absent_expr ex progdir opts config (some gm)
      (od ++ "/events_to_genes.xls")
      (some (reSub ".xls" "_with_motifs.txt" (od ++ "/events_to_genes.xls")))
      (reSub ".tgm" ".pkl" (reSub ".txt" ".tgm"
        (reSub ".xls" "_with_motifs.txt" (od ++ "/events_to_genes.xls")))) 0
      { fs := fs0, invoked := [], printed := pl } dn0 dl0 hdn0 hdl hE
    refine ⟨N1, by rw [N1]; rfl, ?_, N3⟩
    apply anyProc_eq_false_of
    intro e he
    rcases N2 e he with h2 | h2
    · simp at h2
    · rw [h2]
      decide
  · intro e0 hE hene hex
    obtain ⟨M1, M2, M3, M4⟩ := step4_missing_expr ex progdir opts config (some gm)
      (od ++ "/events_to_genes.xls")
      (some (reSub ".xls" "_with_motifs.txt" (od ++ "/events_to_genes.xls")))
      (reSub ".tgm" ".pkl" (reSub ".txt" ".tgm"
        (reSub ".xls" "_with_motifs.txt" (od ++ "/events_to_genes.xls"))))
      { fs := fs0, invoked := [], printed := pl } e0 dl0 pv0 qv0 hdn hdl hE hene hpv hqv
      (by simpa using hex)
    refine ⟨M1, ?_, M3, M4⟩
    rw [M2]
    rfl

/-- Witness for the amended C6 over a fully cached filesystem: with the
expressionFile key absent the regression result stays unassigned (the run
crashes at the read), and with a present path naming a nonexistent file the
run completes with the warning printed. -/
theorem c6_amended_witness :
    (main ex0 "" opts0 ["garnet.cfg"] (cfgPipe (some "False") none (some "") (some ""))
        fsCached).regressionOut = none
  ∧ (main ex0 "" opts0 ["garnet.cfg"]
        (cfgPipe (some "False") (some "e.txt") (some "") (some "")) fsCached).terminal
      = .completed
  ∧ "Cannot perform regression because binding matrix or expression datasets are missing"
      ∈ (main ex0 "" opts0 ["garnet.cfg"]
          (cfgPipe (some "False") (some "e.txt") (some "") (some "")) fsCached).printed :=
  ⟨((c6_amended ex0 "" opts0 ["garnet.cfg"]
      (cfgPipe (some "False") none (some "") (some "")) fsCached
      "od" "g.txt" "b.bed" "x.txt" "2000" "t.tamo" "4" "hg19" "f.fasta" "." "" ""
      (by decide) (by decide) (by decide) (by decide) (by decide) (by decide) (by decide)
      (by decide) (by decide) (by decide) (by decide) (by decide) (by decide) (by decide)
      (by decide) (by decide) (by decide) (by decide) (Or.inr (by decide)) (by decide)
      (by decide) (by decide)).1 (by decide)).2.2.2,
   ((c6_amended ex0 "" opts0 ["garnet.cfg"]
      (cfgPipe (some "False") (some "e.txt") (some "") (some "")) fsCached
      "od" "g.txt" "b.bed" "x.txt" "2000" "t.tamo" "4" "hg19" "f.fasta" "." "" ""
      (by decide) (by decide) (by decide) (by decide) (by decide) (by decide) (by decide)
      (by decide) (by decide) (by decide) (by decide) (by decide) (by decide) (by decide)
      (by decide) (by decide) (by decide) (by decide) (Or.inr (by decide)) (by decide)
      (by decide) (by decide)).2 "e.txt" (by decide) (by decide) (by decide)).1,
   ((c6_amended ex0 "" opts0 ["garnet.cfg"]
      (cfgPipe (some "False") (some "e.txt") (some "") (some "")) fsCached
      "od" "g.txt" "b.bed" "x.txt" "2000" "t.tamo" "4" "hg19" "f.fasta" "." "" ""
      (by decide) (by decide) (by decide) (by decide) (by decide) (by decide) (by decide)
      (by decide) (by decide) (by decide) (by decide) (by decide) (by decide) (by decide)
      (by decide) (by decide) (by decide) (by decide) (Or.inr (by decide)) (by decide)
      (by decide) (by decide)).2 "e.txt" (by decide) (by decide) (by decide)).2.2.2⟩

/-- Claim C1 amended: each of the four artifact-producing stages returns a
success result without invoking its external command when its expected output
path already exists (the mapping stage may still invoke the
directory-creation call); the network-export block has no cache check, so a
rerun (over a configuration carrying every key the run reads, absent keys
crashing at their read instead) invokes zero external processes only when
network export is disabled, in which case it completes with the same
artifact paths, which depend on the configuration alone. -/
theorem c1_amended :
    (∀ (ex : Exec) (progdir gf xr bf w od : String) (s : S),
      fsExists s.fs (od ++ "/events_to_genes.xls") = true →
      (mapGenesToRegions ex progdir gf (some xr) bf w (some od) s).1
          = .ok (0, od ++ "/events_to_genes.xls")
      ∧ ∀ e ∈ (mapGenesToRegions ex progdir gf (some xr) bf w (some od) s).2.invoked,
          e ∈ s.invoked ∨ e.1 = .mkdirP)
  ∧ (∀ (ex : Exec) (progdir t f n g cg mbo : String) (s : S),
      mbo = (if cg = "" then reSub ".fasta" "_with_motifs.txt" f
        else reSub ".xls" "_with_motifs.txt" cg) →
      fsExists s.fs mbo = true →
      (motifScanning ex progdir t f n g cg s).1 = (0, mbo)
      ∧ (motifScanning ex progdir t f n g cg s).2.invoked = s.invoked)
  ∧ (∀ (ex : Exec) (progdir mb out fa tm pkl : String) (u : Bool) (s : S),
      pkl = reSub ".tgm" ".pkl" (reSub ".txt" ".tgm" mb) →
      fsExists s.fs pkl = true →
      (createBindingMatrix ex progdir mb out fa tm u s).1 = (0, pkl)
      ∧ (createBindingMatrix ex progdir mb out fa tm u s).2.invoked = s.invoked)
  ∧ (∀ (ex : Exec) (progdir pk ef rout : String) (pvt qvt : Option String) (s : S),
      rout = reSub ".pkl" "regression_results.xls" pk →
      fsExists s.fs rout = true →
      (getTfsFromRegression ex progdir pk ef pvt qvt s).1 = (0, rout)
      ∧ (getTfsFromRegression ex progdir pk ef pvt qvt s).2.invoked = s.invoked)
  ∧ (∀ (ex : Exec) (progdir : String) (opts : Opts) (args : List String)
      (config : Config) (fs0 : FS) (od gf bf xr w tf nt gm ff dl0 ef0 pv0 qv0 : String),
      args.length = 1 → opts.outdir = some od →
      config.get "chromatinData" "genefile" = some gf →
      config.get "chromatinData" "bedfile" = some bf →
      config.get "chromatinData" "xreffile" = some xr →
      config.get "chromatinData" "windowsize" = some w →
      config.get "motifData" "tamo_file" = some tf → tf ≠ "" →
      config.get "motifData" "genome" = some gm →
      config.get "motifData" "numthreads" = some nt →
      config.get "chromatinData" "fastafile" = some ff → ff ≠ "" →
      fsExists fs0 od = true →
      fsExists fs0 (od ++ "/events_to_genes.xls") = true →
      fsExists fs0 tf = true → fsExists fs0 ff = true →
      fsExists fs0 (reSub ".xls" "_with_motifs.txt" (od ++ "/events_to_genes.xls")) = true →
      fsExists fs0 (reSub ".tgm" ".pkl" (reSub ".txt" ".tgm"
        (reSub ".xls" "_with_motifs.txt" (od ++ "/events_to_genes.xls")))) = true →
      fsExists fs0 (reSub ".pkl" "regression_results.xls" (reSub ".tgm" ".pkl"
        (reSub ".txt" ".tgm" (reSub ".xls" "_with_motifs.txt"
          (od ++ "/events_to_genes.xls"))))) = true →
      (config.get "motifData" "doNetwork" = some "" ∨
        config.get "motifData" "doNetwork" = some "False") →
      config.get "motifData" "tfDelimiter" = some dl0 →
      config.get "expressionData" "expressionFile" = some ef0 →
      config.get "expressionData" "pvalThresh" = some pv0 →
      config.get "expressionData" "qvalThresh" = some qv0 →
      (main ex progdir opts args config fs0).invoked = []
      ∧ (main ex progdir opts args config fs0).terminal = .completed
      ∧ (main ex progdir opts args config fs0).outfile
          = some (od ++ "/events_to_genes.xls")
      ∧ (main ex progdir opts args config fs0).bindingOut
          = some (reSub ".xls" "_with_motifs.txt" (od ++ "/events_to_genes.xls"))
      ∧ (main ex progdir opts args config fs0).bindingMatrix
          = some (reSub ".tgm" ".pkl" (reSub ".txt" ".tgm"
              (reSub ".xls" "_with_motifs.txt" (od ++ "/events_to_genes.xls"))))
      ∧ ((main ex progdir opts args config fs0).regressionOut = none ∨
          (main ex progdir opts args config fs0).regressionOut
            = some (reSub ".pkl" "regression_results.xls" (reSub ".tgm" ".pkl"
                (reSub ".txt" ".tgm" (reSub ".xls" "_with_motifs.txt"
                  (od ++ "/events_to_genes.xls"))))))) := by
  refine ⟨?_, ?_, ?_, ?_, ?_⟩
  · intro ex progdir gf xr bf w od s hcache
    have hc2 : fsExists (mkdirIfMissing ex od s).fs (od ++ "/events_to_genes.xls") = true :=
      mkdirIfMissing_fs_mono ex od s _ hcache
    constructor
    · simp [mapGenesToRegions, hc2]
    · intro e he
      simp only [mapGenesToRegions, hc2, if_true, ite_true, pr] at he
      exact mkdirIfMissing_invoked ex od s e he
  · intro ex progdir t f n g cg mbo s hmbo hcache
    subst hmbo
    constructor
    · simp [motifScanning, hcache]
    · simp [motifScanning, hcache, pr]
  · intro ex progdir mb out fa tm pkl u s hpkl hcache
    subst hpkl
    constructor
    · simp [createBindingMatrix, hcache]
    · simp [createBindingMatrix, hcache, pr]
  · intro ex progdir pk ef rout pvt qvt s hrout hcache
    subst hrout
    constructor
    · simp [getTfsFromRegression, pr, hcache]
    · simp [getTfsFromRegression, pr, hcache]
  · intro ex progdir opts args config fs0 od gf bf xr w tf nt gm ff dl0 ef0 pv0 qv0
      h1 hod hgf hbf hxr hw ht htne hgm hnt hf hfne hdod hout hts hfs hmbo hpkl hreg
      hdn hdl hef hpv hqv
    obtain ⟨pl, hEq⟩ := main_cached_chain ex progdir opts args config fs0 od gf bf xr w tf
      nt gm ff h1 hod hgf hbf hxr hw ht htne hgm hnt hf hfne hdod hout hts hfs hmbo hpkl
    rw [hEq]
    have hpklne : reSub ".tgm" ".pkl" (reSub ".txt" ".tgm"
        (reSub ".xls" "_with_motifs.txt" (od ++ "/events_to_genes.xls"))) ≠ "" := by
      apply reSub_ne_empty _ _ _ (by decide)
      apply reSub_ne_empty _ _ _ (by decide)
      apply reSub_ne_empty _ _ _ (by decide)
      exact append_ne_empty_right od "/events_to_genes.xls" (by decide)
    exact step4_cached ex progdir opts config gm (od ++ "/events_to_genes.xls")
      (reSub ".xls" "_with_motifs.txt" (od ++ "/events_to_genes.xls"))
      (reSub ".tgm" ".pkl" (reSub ".txt" ".tgm"
        (reSub ".xls" "_with_motifs.txt" (od ++ "/events_to_genes.xls"))))
      fs0 pl dl0 ef0 pv0 qv0 hdn hdl hef hpv hqv hpklne hpkl hreg

/-- Witness for the amended C1: over a fully cached filesystem every stage is
skipped with a success result and a rerun performs no invocation at all. -/
theorem c1_amended_witness :
    (mapGenesToRegions ex0 "" "g.txt" (some "x.txt") "b.bed" "2000" (some "od")
        { fs := fsCached, invoked := [], printed := [] }).1
      = .ok (0, "od" ++ "/events_to_genes.xls")
  ∧ (motifScanning ex0 "" "t.tamo" "f.fasta" "1" "hg19" "od/events_to_genes.xls"
        { fs := fsCached, invoked := [], printed := [] }).1
      = (0, reSub ".xls" "_with_motifs.txt" "od/events_to_genes.xls")
  ∧ (createBindingMatrix ex0 "" mbo0 "od/events_to_genes.xls" "nf.fsa" "t.tamo" false
        { fs := fsCached, invoked := [], printed := [] }).1
      = (0, reSub ".tgm" ".pkl" (reSub ".txt" ".tgm" mbo0))
  ∧ (getTfsFromRegression ex0 "" pkl0 "e.txt" none none
        { fs := fsCached, invoked := [], printed := [] }).1
      = (0, reSub ".pkl" "regression_results.xls" pkl0)
  ∧ (main ex0 "" opts0 ["garnet.cfg"] (cfgPipe (some "False") (some "") (some "") (some ""))
      fsCached).invoked = []
  ∧ (main ex0 "" opts0 ["garnet.cfg"] (cfgPipe (some "False") (some "") (some "") (some ""))
      fsCached).terminal = .completed :=
  ⟨(c1_amended.1 ex0 "" "g.txt" "x.txt" "b.bed" "2000" "od"
      { fs := fsCached, invoked := [], printed := [] } (by decide)).1,
   (c1_amended.2.1 ex0 "" "t.tamo" "f.fasta" "1" "hg19" "od/events_to_genes.xls"
      (reSub ".xls" "_with_motifs.txt" "od/events_to_genes.xls")
      { fs := fsCached, invoked := [], printed := [] } (by decide) (by decide)).1,
   (c1_amended.2.2.1 ex0 "" mbo0 "od/events_to_genes.xls" "nf.fsa" "t.tamo"
      (reSub ".tgm" ".pkl" (reSub ".txt" ".tgm" mbo0)) false
      { fs := fsCached, invoked := [], printed := [] } rfl (by decide)).1,
   (c1_amended.2.2.2.1 ex0 "" pkl0 "e.txt"
      (reSub ".pkl" "regression_results.xls" pkl0) none none
      { fs := fsCached, invoked := [], printed := [] } rfl (by decide)).1,
   (c1_amended.2.2.2.2 ex0 "" opts0 ["garnet.cfg"]
      (cfgPipe (some "False") (some "") (some "") (some "")) fsCached
      "od" "g.txt" "b.bed" "x.txt" "2000" "t.tamo" "4" "hg19" "f.fasta" "." "" "" ""
      (by decide) (by decide) (by decide) (by decide) (by decide) (by decide) (by decide)
      (by decide) (by decide) (by decide) (by decide) (by decide) (by decide) (by decide)
      (by decide) (by decide) (by decide) (by decide) (by decide) (Or.inr (by decide))
      (by decide) (by decide) (by decide) (by decide)).1,
   (c1_amended.2.2.2.2 ex0 "" opts0 ["garnet.cfg"]
      (cfgPipe (some "False") (some "") (some "") (some "")) fsCached
      "od" "g.txt" "b.bed" "x.txt" "2000" "t.tamo" "4" "hg19" "f.fasta" "." "" "" ""
      (by decide) (by decide) (by decide) (by decide) (by decide) (by decide) (by decide)
      (by decide) (by decide) (by decide) (by decide) (by decide) (by decide) (by decide)
      (by decide) (by decide) (by decide) (by decide) (by decide) (Or.inr (by decide))
      (by decide) (by decide) (by decide) (by decide)).2.1⟩

end Garnet
